import Mathlib

/-! Token session store over a key-value cache (`service/auth/redis.go`).

A shallow embedding of `RedisAuth` and of the cache commands it issues.
The cache is a finite map from key names to typed values (string, hash,
set) with an optional time to live; every method of `RedisAuth` is a
function from a cache state to a result and, for the writing methods, a
new cache state.
-/

namespace Auth

/-! ## Decimal text -/

/-- The character of a decimal digit `d < 10`. -/
def digitChar (d : Nat) : Char := Char.ofNat (48 + d)

/-- The value of a decimal digit character, `none` for any other character. -/
def digitVal (c : Char) : Option Nat :=
  if 48 ≤ c.toNat ∧ c.toNat ≤ 57 then some (c.toNat - 48) else none

/-- Decimal digits of `n`, most significant first; `fuel` bounds the number of
divisions and `fuel = n` is always enough. -/
def natDigitsAux : Nat → Nat → List Char
  | 0, n => [digitChar (n % 10)]
  | fuel + 1, n =>
    if n < 10 then [digitChar n] else natDigitsAux fuel (n / 10) ++ [digitChar (n % 10)]

/-- Decimal digits of `n`. -/
def natDigits (n : Nat) : List Char := natDigitsAux n n

/-- Function `strconv.FormatUint(id, 10)`. -/
def FormatUint (n : Nat) : String := String.mk (natDigits n)

/-- Decimal text of a signed integer (`strconv.FormatInt(i, 10)`), the form in
which the cache client writes integer arguments. -/
def FormatInt (i : Int) : String :=
  if i < 0 then String.mk ('-' :: natDigits i.natAbs) else String.mk (natDigits i.natAbs)

/-- Reads a run of decimal digits onto the accumulator; `none` at the first
character that is not a digit. -/
def parseDigits : List Char → Nat → Option Nat
  | [], acc => some acc
  | c :: cs, acc =>
    match digitVal c with
    | some d => parseDigits cs (acc * 10 + d)
    | none => none

/-- A non-empty run of decimal digits. -/
def parseUnsigned : List Char → Option Nat
  | [] => none
  | c :: cs => parseDigits (c :: cs) 0

/-- Function `strconv.ParseUint(s, 10, 64)`: a non-empty run of digits below `2^64`. -/
def strconvParseUint (s : String) : Option Nat :=
  match parseUnsigned s.data with
  | some n => if n < 2 ^ 64 then some n else none
  | none => none

/-- Function `strconv.ParseInt(s, 10, 64)`: an optional sign, a non-empty run of digits,
and the value within the range of a 64-bit signed integer. -/
def strconvParseInt (s : String) : Option Int :=
  match s.data with
  | [] => none
  | c :: cs =>
    if c = '-' then
      match parseUnsigned cs with
      | some n => if n ≤ 2 ^ 63 then some (-(n : Int)) else none
      | none => none
    else if c = '+' then
      match parseUnsigned cs with
      | some n => if n < 2 ^ 63 then some (n : Int) else none
      | none => none
    else
      match parseUnsigned (c :: cs) with
      | some n => if n < 2 ^ 63 then some (n : Int) else none
      | none => none

/-- Function `strings.Contains(s, sub)`: `sub` occurs in `s` as a contiguous run. -/
def stringsContains (s sub : String) : Bool := decide (sub.data <:+: s.data)

/-- Function `strings.HasPrefix(s, p)`: `s` starts with `p`. -/
def stringsHasPrefix (s p : String) : Bool := decide (p.data <+: s.data)

/-- The conversion `uint(x)` of a signed integer on a 64-bit target. -/
def uint (x : Int) : Nat := (x % 2 ^ 64).toNat

/-! ## Cache state -/

/-- Errors the store can return. -/
inductive Err
  /-- The sentinel `ErrTokenInvalid`. -/
  | ErrTokenInvalid
  /-- The cache refused a command because the key holds another kind of value. -/
  | WrongType
  /-- The reply was nil (`redis.ErrNil`). -/
  | ErrNil
  /-- The reply is not the text of an integer (`strconv` error out of `redis.Int`). -/
  | NotInteger
  /-- The reply has a kind the conversion does not accept. -/
  | UnexpectedReply
  /-- A stored hash does not decode into a session. -/
  | Decode
  /-- The cache did not carry out a writing command. -/
  | WriteRefused
  deriving DecidableEq, Repr

/-- A value held under a key. -/
inductive Value
  | str (s : String)
  | hash (fields : List (String × String))
  | set (members : List String)
  deriving DecidableEq, Repr

/-- A key's value together with its time to live in seconds (`none`: no expiry). -/
structure Entry where
  val : Value
  ttl : Option Int
  deriving DecidableEq, Repr

/-- The cache: key name to entry, `none` for a key that does not exist. -/
abbrev Store := String → Option Entry

/-- A reply of the cache to a reading command. -/
inductive Reply
  | int (n : Int)
  | bulk (s : String)
  | nil
  | array (items : List String)
  deriving DecidableEq, Repr

/-- The state with `key` removed. -/
def Store.remove (s : Store) (key : String) : Store :=
  fun k => if k = key then none else s k

/-- The state with `key` bound to `e`. -/
def Store.put (s : Store) (key : String) (e : Entry) : Store :=
  fun k => if k = key then some e else s k

/-- The members of the set held under `key`; empty when the key does not exist
or holds another kind of value. -/
def Store.members (s : Store) (key : String) : List String :=
  match s key with
  | some ⟨Value.set l, _⟩ => l
  | _ => []

/-- Writes one field of a hash, replacing the field when it is already there. -/
def hset : List (String × String) → String → String → List (String × String)
  | [], f, v => [(f, v)]
  | p :: ps, f, v => if p.1 = f then (f, v) :: ps else p :: hset ps f v

/-- Writes fields in order. -/
def hmset (h : List (String × String)) (pairs : List (String × String)) :
    List (String × String) :=
  pairs.foldl (fun acc p => hset acc p.1 p.2) h

/-- A field of a hash. -/
def hget : List (String × String) → String → Option String
  | [], _ => none
  | p :: ps, f => if p.1 = f then some p.2 else hget ps f

/-! ## Session records and what `redis.go` takes from outside -/

/-- The session record stored under a token key (`Session`). -/
structure Session where
  UserId : String
  LoginType : Int
  AuthType : Int
  CreationDate : Int
  ExpiresIn : Int
  Scope : Nat
  deriving DecidableEq, Repr

/-- What `redis.go` refers to and does not declare: the package constants (key
prefixes, the device limit default, login and authentication types, scopes,
session timeouts in nanoseconds as `time.Duration`), the helper
`libs.ParseInt`, whose result is a machine `int`, the conversion
`int(d.Seconds())` of a duration to whole seconds, and the condition of the
cache behind `ra.Conn`: the keys on which it refuses every writing command,
as a read-only or failing node does. -/
structure Consts where
  ZxwSessionTokenPrefix : String
  ZxwSessionBindUserPrefix : String
  ZxwSessionUserPrefix : String
  ZxwSessionUserMaxTokenPrefix : String
  ZxwSessionUserMaxTokenDefault : Int
  LoginTypeWeb : Int
  LoginTypeApp : Int
  LoginTypeWx : Int
  LoginTypeAlipay : Int
  AuthPwd : Int
  AdminScope : Nat
  NoneScope : Nat
  RedisSessionTimeoutWeb : Int
  RedisSessionTimeoutApp : Int
  RedisSessionTimeoutWx : Int
  ParseInt : String → Int → Int
  ParseInt_int : ∀ (b : String) (defInt : Int), -(2 : Int) ^ 63 ≤ defInt → defInt < 2 ^ 63 →
    -(2 : Int) ^ 63 ≤ ParseInt b defInt ∧ ParseInt b defInt < 2 ^ 63
  Seconds : Int → Int
  WriteRefused : String → Bool

/-- The integer constants and the clock value fit their machine types:
`int`/`int64` for login type, authentication type and timestamp, `uint64` for
the scope. -/
def Consts.InRange (c : Consts) (now : Int) : Prop :=
  (-(2 : Int) ^ 63 ≤ c.LoginTypeWeb ∧ c.LoginTypeWeb < 2 ^ 63) ∧
  (-(2 : Int) ^ 63 ≤ c.AuthPwd ∧ c.AuthPwd < 2 ^ 63) ∧
  (-(2 : Int) ^ 63 ≤ now ∧ now < 2 ^ 63) ∧
  c.AdminScope < 2 ^ 64

/-- The key of the session hash of `token`. -/
def tokenKey (c : Consts) (token : String) : String := c.ZxwSessionTokenPrefix ++ token

/-- The key of the set of active tokens of `userId`. -/
def userTokensKey (c : Consts) (userId : String) : String := c.ZxwSessionUserPrefix ++ userId

/-- The key of the set of index keys that refer to `token`. -/
def tokenBindingsKey (c : Consts) (token : String) : String :=
  c.ZxwSessionBindUserPrefix ++ token

/-- A signed integer field of a stored session: zero when the hash has no such
field, `none` when its text is malformed. -/
def fieldInt (h : List (String × String)) (f : String) : Option Int :=
  match hget h f with
  | none => some 0
  | some v => strconvParseInt v

/-- An unsigned integer field of a stored session: zero when the hash has no
such field, `none` when its text is malformed. -/
def fieldUint (h : List (String × String)) (f : String) : Option Nat :=
  match hget h f with
  | none => some 0
  | some v => strconvParseUint v

/-- A text field of a stored session: empty when the hash has no such field. -/
def fieldString (h : List (String × String)) (f : String) : String :=
  match hget h f with
  | none => ""
  | some v => v

/-- Modelled from the spec: the session record codec of the cache client
(`LoadRedisHashToStruct` decodes through it; the cache package is not under
src/). A field the hash does not have decodes to its zero value, a malformed
field fails the decoding, and a failed decoding yields no session at all. -/
def decodeSession (h : List (String × String)) : Except Err Session :=
  match fieldInt h "login_type", fieldInt h "auth_type", fieldInt h "creation_data",
      fieldInt h "expires_in", fieldUint h "scope" with
  | some lt, some au, some cd, some ex, some sc =>
    Except.ok ⟨fieldString h "user_id", lt, au, cd, ex, sc⟩
  | _, _, _, _, _ => Except.error Err.Decode

/-! ## The cache client -/

namespace RedisCluster

/-- Modelled from the spec: `RedisCluster.Exists` (the cache package is not
under src/), the existence check. -/
def Exists (s : Store) (key : String) : Bool := (s key).isSome

/-- Modelled from the spec: the hash read of the cache client (the cache
package is not under src/); a key that does not exist reads as the empty
hash, a key of another kind is refused. -/
def HGetAll (s : Store) (key : String) : Except Err (List (String × String)) :=
  match s key with
  | none => Except.ok []
  | some ⟨Value.hash h, _⟩ => Except.ok h
  | some _ => Except.error Err.WrongType

/-- Modelled from the spec: `RedisCluster.LoadRedisHashToStruct` (the cache
package is not under src/), the hash read followed by decoding. -/
def LoadRedisHashToStruct (s : Store) (key : String) : Except Err Session :=
  match HGetAll s key with
  | Except.error e => Except.error e
  | Except.ok h => decodeSession h

/-- Modelled from the spec: `RedisCluster.Scard` (the cache package is not
under src/), the set cardinality. -/
def Scard (s : Store) (key : String) : Except Err Reply :=
  match s key with
  | none => Except.ok (Reply.int 0)
  | some ⟨Value.set l, _⟩ => Except.ok (Reply.int l.length)
  | some _ => Except.error Err.WrongType

/-- Modelled from the spec: `RedisCluster.GetKey` (the cache package is not
under src/), the read of a string key. -/
def GetKey (s : Store) (key : String) : Except Err Reply :=
  match s key with
  | none => Except.ok Reply.nil
  | some ⟨Value.str v, _⟩ => Except.ok (Reply.bulk v)
  | some _ => Except.error Err.WrongType

/-- Modelled from the spec: `RedisCluster.Members` (the cache package is not
under src/), the set membership list. -/
def Members (s : Store) (key : String) : Except Err Reply :=
  match s key with
  | none => Except.ok (Reply.array [])
  | some ⟨Value.set l, _⟩ => Except.ok (Reply.array l)
  | some _ => Except.error Err.WrongType

/-- Modelled from the spec: the set remove on a key that accepts writing; a
set left without members is deleted. -/
def srem (s : Store) (key member : String) : Except Err Store :=
  match s key with
  | none => Except.ok s
  | some ⟨Value.set l, ttl⟩ =>
    if l.filter (fun m => m ≠ member) = [] then Except.ok (s.remove key)
    else Except.ok (s.put key ⟨Value.set (l.filter (fun m => m ≠ member)), ttl⟩)
  | some _ => Except.error Err.WrongType

/-- Modelled from the spec: `RedisCluster.Do` (the cache package is not under
src/), the generic command execution; `redis.go` issues `SREM` through it. -/
def Do (c : Consts) (s : Store) (cmd : String) (args : List String) : Except Err Store :=
  if cmd = "SREM" then
    match args with
    | [key, member] =>
      if c.WriteRefused key then Except.error Err.WriteRefused else srem s key member
    | _ => Except.error Err.UnexpectedReply
  else Except.error Err.UnexpectedReply

/-- Modelled from the spec: `RedisCluster.Del` (the cache package is not under
src/), the key deletion. -/
def Del (c : Consts) (s : Store) (key : String) : Except Err Store :=
  if c.WriteRefused key then Except.error Err.WriteRefused else Except.ok (s.remove key)

/-- Modelled from the spec: the hash write on a key that accepts writing;
fields already in the hash are replaced, the others are kept. -/
def hmsetKey (s : Store) (key : String) (pairs : List (String × String)) : Except Err Store :=
  match s key with
  | none => Except.ok (s.put key ⟨Value.hash (hmset [] pairs), none⟩)
  | some ⟨Value.hash h, ttl⟩ => Except.ok (s.put key ⟨Value.hash (hmset h pairs), ttl⟩)
  | some _ => Except.error Err.WrongType

/-- Modelled from the spec: `RedisCluster.HMSet` (the cache package is not
under src/), the hash write. -/
def HMSet (c : Consts) (s : Store) (key : String) (pairs : List (String × String)) :
    Except Err Store :=
  if c.WriteRefused key then Except.error Err.WriteRefused else hmsetKey s key pairs

/-- Modelled from the spec: the set add on a key that accepts writing. -/
def sadd (s : Store) (key member : String) : Except Err Store :=
  match s key with
  | none => Except.ok (s.put key ⟨Value.set [member], none⟩)
  | some ⟨Value.set l, ttl⟩ =>
    if member ∈ l then Except.ok s else Except.ok (s.put key ⟨Value.set (l ++ [member]), ttl⟩)
  | some _ => Except.error Err.WrongType

/-- Modelled from the spec: `RedisCluster.Sadd` (the cache package is not under
src/), the set add. -/
def Sadd (c : Consts) (s : Store) (key member : String) : Except Err Store :=
  if c.WriteRefused key then Except.error Err.WriteRefused else sadd s key member

/-- Modelled from the spec: `RedisCluster.Expire` (the cache package is not
under src/), the key expiry-set; a time to live that is not positive deletes
the key. -/
def Expire (c : Consts) (s : Store) (key : String) (secs : Int) : Except Err Store :=
  if c.WriteRefused key then Except.error Err.WriteRefused
  else
    match s key with
    | none => Except.ok s
    | some e =>
      if secs ≤ 0 then Except.ok (s.remove key) else Except.ok (s.put key ⟨e.val, some secs⟩)

end RedisCluster

/-- Function `redis.Int`: an integer reply, or the decimal text of an integer. -/
def redisInt (r : Except Err Reply) : Except Err Int :=
  match r with
  | Except.error e => Except.error e
  | Except.ok (Reply.int n) => Except.ok n
  | Except.ok (Reply.bulk b) =>
    match strconvParseInt b with
    | some n => Except.ok n
    | none => Except.error Err.NotInteger
  | Except.ok Reply.nil => Except.error Err.ErrNil
  | Except.ok (Reply.array _) => Except.error Err.UnexpectedReply

/-- Function `redis.Strings`: the items of an array reply. -/
def redisStrings (r : Except Err Reply) : Except Err (List String) :=
  match r with
  | Except.error e => Except.error e
  | Except.ok (Reply.array l) => Except.ok l
  | Except.ok Reply.nil => Except.error Err.ErrNil
  | Except.ok _ => Except.error Err.UnexpectedReply

/-! ## `RedisAuth` -/

/-- Method `RedisAuth.GetSessionV2`: the session stored under the token key. -/
def GetSessionV2 (c : Consts) (s : Store) (token : String) : Except Err Session :=
  let sKey := c.ZxwSessionTokenPrefix ++ token
  if !RedisCluster.Exists s sKey then Except.error Err.ErrTokenInvalid
  else
    match RedisCluster.LoadRedisHashToStruct s sKey with
    | Except.error e => Except.error e
    | Except.ok pp => Except.ok pp

/-- Method `RedisAuth.GetAuthId`: the user id of the session of `token`. -/
def GetAuthId (c : Consts) (s : Store) (token : String) : Except Err Nat :=
  match GetSessionV2 c s token with
  | Except.error e => Except.error e
  | Except.ok sess => Except.ok (uint (c.ParseInt sess.UserId 10))

/-- Method `RedisAuth.getUserTokenCount`: the number of tokens of the user, `0` when
the cardinality cannot be read. -/
def getUserTokenCount (c : Consts) (s : Store) (userId : String) : Int :=
  match redisInt (RedisCluster.Scard s (c.ZxwSessionUserPrefix ++ userId)) with
  | Except.error _ => 0
  | Except.ok count => count

/-- Method `RedisAuth.getUserTokenMaxCount`: the configured device limit, the default
when it cannot be read. -/
def getUserTokenMaxCount (c : Consts) (s : Store) : Int :=
  match redisInt (RedisCluster.GetKey s c.ZxwSessionUserMaxTokenPrefix) with
  | Except.error _ => c.ZxwSessionUserMaxTokenDefault
  | Except.ok count => count

/-- Method `RedisAuth.IsUserTokenOver`: the user is at or over the device limit. -/
def IsUserTokenOver (c : Consts) (s : Store) (userId : String) : Bool :=
  if getUserTokenCount c s userId ≥ getUserTokenMaxCount c s then true else false

/-- The loop of `RedisAuth.UserTokenExpired` over the members of the
token-bindings set. -/
def UserTokenExpiredLoop (c : Consts) (token : String) : List String → Store → Except Err Store
  | [], s => Except.ok s
  | v :: sKeys, s =>
    if !stringsContains v c.ZxwSessionUserPrefix then UserTokenExpiredLoop c token sKeys s
    else
      match RedisCluster.Do c s "SREM" [v, token] with
      | Except.error e => Except.error e
      | Except.ok s1 => UserTokenExpiredLoop c token sKeys s1

/-- Method `RedisAuth.UserTokenExpired`: takes `token` out of the sets its bindings
name, then deletes the bindings key. -/
def UserTokenExpired (c : Consts) (s : Store) (token : String) : Except Err Store :=
  let uKey := c.ZxwSessionBindUserPrefix ++ token
  match redisStrings (RedisCluster.Members s uKey) with
  | Except.error e => Except.error e
  | Except.ok sKeys =>
    match UserTokenExpiredLoop c token sKeys s with
    | Except.error e => Except.error e
    | Except.ok s1 =>
      match RedisCluster.Del c s1 uKey with
      | Except.error e => Except.error e
      | Except.ok s2 => Except.ok s2

/-- Function `GetUserScope`: the scope of a role. -/
def GetUserScope (c : Consts) (userType : String) : Nat :=
  if userType = "admin" then c.AdminScope else c.NoneScope

/-- Method `RedisAuth.ToCache`: writes the session of a fresh login under the token
key; `now` is the reading of the clock. -/
def ToCache (c : Consts) (now : Int) (s : Store) (token : String) (id : Nat) : Except Err Store :=
  let sKey := c.ZxwSessionTokenPrefix ++ token
  let rsv2 : Session :=
    ⟨FormatUint id, c.LoginTypeWeb, c.AuthPwd, now, 0, GetUserScope c "admin"⟩
  match RedisCluster.HMSet c s sKey
      [("user_id", rsv2.UserId),
       ("login_type", FormatInt rsv2.LoginType),
       ("auth_type", FormatInt rsv2.AuthType),
       ("creation_data", FormatInt rsv2.CreationDate),
       ("expires_in", FormatInt rsv2.ExpiresIn),
       ("scope", FormatUint rsv2.Scope)] with
  | Except.error e => Except.error e
  | Except.ok s1 => Except.ok s1

/-- Method `RedisAuth.SyncUserTokenCache`: enters the token in its user's set and the
set's key in the token's bindings. -/
def SyncUserTokenCache (c : Consts) (s : Store) (token : String) : Except Err Store :=
  match GetSessionV2 c s token with
  | Except.error e => Except.error e
  | Except.ok rsv2 =>
    let sKey := c.ZxwSessionUserPrefix ++ rsv2.UserId
    match RedisCluster.Sadd c s sKey token with
    | Except.error e => Except.error e
    | Except.ok s1 =>
      let sKey2 := c.ZxwSessionBindUserPrefix ++ token
      match RedisCluster.Sadd c s1 sKey2 sKey with
      | Except.error e => Except.error e
      | Except.ok s2 => Except.ok s2

/-- Method `RedisAuth.getTokenExpire`: the timeout of a session by login type. -/
def getTokenExpire (c : Consts) (rsv2 : Session) : Int :=
  if rsv2.LoginType = c.LoginTypeWeb then c.RedisSessionTimeoutWeb
  else if rsv2.LoginType = c.LoginTypeWx then c.RedisSessionTimeoutWx
  else if rsv2.LoginType = c.LoginTypeAlipay then c.RedisSessionTimeoutWx
  else c.RedisSessionTimeoutApp

/-- Method `RedisAuth.UpdateUserTokenCacheExpire`: sets the time to live of the token
key from the login type of its session. The check `rsv2 == nil` of the source
has no branch here: `GetSessionV2` returns a session whenever it returns no
error. -/
def UpdateUserTokenCacheExpire (c : Consts) (s : Store) (token : String) : Except Err Store :=
  match GetSessionV2 c s token with
  | Except.error e => Except.error e
  | Except.ok rsv2 =>
    match RedisCluster.Expire c s (c.ZxwSessionTokenPrefix ++ token)
        (c.Seconds (getTokenExpire c rsv2)) with
    | Except.error e => Except.error e
    | Except.ok s1 => Except.ok s1

/-- Method `RedisAuth.DelTokenCache`: deletes the bindings key and the token key. -/
def DelTokenCache (c : Consts) (s : Store) (token : String) : Except Err Store :=
  let sKey2 := c.ZxwSessionBindUserPrefix ++ token
  match RedisCluster.Del c s sKey2 with
  | Except.error e => Except.error e
  | Except.ok s1 =>
    let sKey3 := c.ZxwSessionTokenPrefix ++ token
    match RedisCluster.Del c s1 sKey3 with
    | Except.error e => Except.error e
    | Except.ok s2 => Except.ok s2

/-- Method `RedisAuth.DelUserTokenCache`: takes the token out of its user's set, then
deletes the token. The check `rsv2 == nil` of the source has no branch here:
`GetSessionV2` returns a session whenever it returns no error. -/
def DelUserTokenCache (c : Consts) (s : Store) (token : String) : Except Err Store :=
  match GetSessionV2 c s token with
  | Except.error e => Except.error e
  | Except.ok rsv2 =>
    let sKey := c.ZxwSessionUserPrefix ++ rsv2.UserId
    match RedisCluster.Do c s "SREM" [sKey, token] with
    | Except.error e => Except.error e
    | Except.ok s1 =>
      match DelTokenCache c s1 token with
      | Except.error e => Except.error e
      | Except.ok s2 => Except.ok s2

/-- The loop of `RedisAuth.CleanUserTokenCache` over the listed tokens. -/
def CleanUserTokenCacheLoop (c : Consts) : List String → Store → Except Err Store
  | [], s => Except.ok s
  | token :: allTokens, s =>
    match DelTokenCache c s token with
    | Except.error e => Except.error e
    | Except.ok s1 => CleanUserTokenCacheLoop c allTokens s1

/-- Method `RedisAuth.CleanUserTokenCache`: deletes the user's set and every token it
lists; the user is the one of the session of `token`. -/
def CleanUserTokenCache (c : Consts) (s : Store) (token : String) : Except Err Store :=
  match GetSessionV2 c s token with
  | Except.error e => Except.error e
  | Except.ok rsv2 =>
    let sKey := c.ZxwSessionUserPrefix ++ rsv2.UserId
    match redisStrings (RedisCluster.Members s sKey) with
    | Except.error e => Except.error e
    | Except.ok allTokens =>
      match RedisCluster.Del c s sKey with
      | Except.error e => Except.error e
      | Except.ok s1 => CleanUserTokenCacheLoop c allTokens s1

/-! ## Vocabulary of the specification -/

/-- The key families do not collide: no user-tokens key is a token key or a
token-bindings key. -/
def Consts.CollisionFree (c : Consts) : Prop :=
  ∀ u t : String, userTokensKey c u ≠ tokenKey c t ∧ userTokensKey c u ≠ tokenBindingsKey c t

/-- The helper `libs.ParseInt` reads the decimal text of every id that fits a
machine `int` back as that id. -/
def Consts.ParsesDecimal (c : Consts) : Prop :=
  ∀ n : Nat, n < 2 ^ 63 → c.ParseInt (FormatUint n) 10 = (n : Int)

/-- The device limit in the words of the specification: the integer stored
under the max-token configuration key when the key is present and its text is
a well-formed integer, `ZxwSessionUserMaxTokenDefault` otherwise. -/
def configuredMax (c : Consts) (s : Store) : Int :=
  match s c.ZxwSessionUserMaxTokenPrefix with
  | some ⟨Value.str v, _⟩ =>
    match strconvParseInt v with
    | some n => n
    | none => c.ZxwSessionUserMaxTokenDefault
  | _ => c.ZxwSessionUserMaxTokenDefault

/-- The cardinality of the user-tokens set of `userId`. -/
def userTokenCard (c : Consts) (s : Store) (userId : String) : Nat :=
  (s.members (userTokensKey c userId)).length

/-- What the set remove leaves under a key: the set without `member`, no key
when no member is left, and any other entry as it was. -/
def sremEntry (e : Option Entry) (member : String) : Option Entry :=
  match e with
  | some ⟨Value.set l, ttl⟩ =>
    if l.filter (fun m => m ≠ member) = [] then none
    else some ⟨Value.set (l.filter (fun m => m ≠ member)), ttl⟩
  | other => other

/-! ## A concrete instance -/

/-- Modelled from the spec: `libs.ParseInt` (the libs package is not under
src/), the numeric parsing utility: the value of a decimal text, the fallback
for any other text. -/
def parseIntOr (b : String) (defInt : Int) : Int :=
  match strconvParseInt b with
  | some n => n
  | none => defInt

/-- A choice of what `redis.go` takes from outside: three prefixes none of
which starts another, login types numbered from zero, timeouts of thirty
minutes, one day and five years, the decimal parser with fallback for
`libs.ParseInt`, the whole seconds of a duration by division truncated toward
zero (the value of `int(d.Seconds())` on every duration of whole seconds, as
the three timeouts are), and a cache that refuses no writing. -/
def sampleConsts : Consts where
  ZxwSessionTokenPrefix := "GST:"
  ZxwSessionBindUserPrefix := "GSBU:"
  ZxwSessionUserPrefix := "GSU:"
  ZxwSessionUserMaxTokenPrefix := "GSUMT"
  ZxwSessionUserMaxTokenDefault := 3
  LoginTypeWeb := 0
  LoginTypeApp := 1
  LoginTypeWx := 2
  LoginTypeAlipay := 3
  AuthPwd := 0
  AdminScope := 1
  NoneScope := 0
  RedisSessionTimeoutWeb := 1800000000000
  RedisSessionTimeoutApp := 86400000000000
  RedisSessionTimeoutWx := 157248000000000000
  ParseInt := parseIntOr
  ParseInt_int := fun b d hlo hhi => by
    unfold parseIntOr
    cases h : strconvParseInt b with
    | none => exact ⟨hlo, hhi⟩
    | some n =>
      unfold strconvParseInt at h
      repeat' split at h
      all_goals cases h
      all_goals (dsimp only; constructor <;> omega)
  Seconds := fun d => Int.tdiv d 1000000000
  WriteRefused := fun _ => false

/-- The sample with a cache that refuses every writing command on the listed
keys. -/
def refusingConsts (refused : List String) : Consts :=
  { sampleConsts with WriteRefused := fun k => decide (k ∈ refused) }

/-- The empty cache. -/
def emptyStore : Store := fun _ => none

/-- The fields of a stored session with the given user id and login type. -/
def sessionHash (userId loginType : String) : List (String × String) :=
  [("user_id", userId), ("login_type", loginType), ("auth_type", "0"),
   ("creation_data", "1600000000"), ("expires_in", "0"), ("scope", "1")]

/-- A cache with user `7` logged in on tokens `a` and `b`, both indexed, and a
third session `c` of the same user written but not yet indexed. -/
def sampleStore : Store := fun k =>
  if k = "GST:a" then some ⟨Value.hash (sessionHash "7" "0"), none⟩
  else if k = "GST:b" then some ⟨Value.hash (sessionHash "7" "0"), none⟩
  else if k = "GST:c" then some ⟨Value.hash (sessionHash "7" "0"), none⟩
  else if k = "GSU:7" then some ⟨Value.set ["a", "b"], none⟩
  else if k = "GSBU:a" then some ⟨Value.set ["GSU:7"], none⟩
  else if k = "GSBU:b" then some ⟨Value.set ["GSU:7"], none⟩
  else none

/-- A cache with one session whose stored user id is not a numeric string. -/
def nonNumericUserStore : Store := fun k =>
  if k = "GST:tok" then some ⟨Value.hash (sessionHash "abc" "0"), none⟩ else none

/-- A cache with a Wx session under token `w` and an Alipay session under
token `p`. -/
def wxAlipayStore : Store := fun k =>
  if k = "GST:w" then some ⟨Value.hash (sessionHash "7" "2"), none⟩
  else if k = "GST:p" then some ⟨Value.hash (sessionHash "8" "3"), none⟩
  else none

/-- A cache in which the bindings of token `a` name two keys: the user-tokens
key `GSU:7` and the key `xGSU:7`, which contains the user-tokens prefix but
does not start with it. Both hold a set with `a` in it. -/
def strayBindingStore : Store := fun k =>
  if k = "GST:a" then some ⟨Value.hash (sessionHash "7" "0"), none⟩
  else if k = "GSU:7" then some ⟨Value.set ["a", "b"], none⟩
  else if k = "xGSU:7" then some ⟨Value.set ["a", "z"], none⟩
  else if k = "GSBU:a" then some ⟨Value.set ["GSU:7", "xGSU:7"], none⟩
  else none

/-- A cache in which the user-tokens key of user `7` holds a string, so that
its cardinality cannot be read, and the device limit is set to `1`. -/
def brokenCountStore : Store := fun k =>
  if k = "GSU:7" then some ⟨Value.str "oops", none⟩
  else if k = "GSUMT" then some ⟨Value.str "1", none⟩
  else if k = "GST:a" then some ⟨Value.hash (sessionHash "7" "0"), none⟩
  else none

/-- A cache in which the token key of token `GSU:x` holds a set instead of a
session hash and is named by the bindings of that token. -/
def setTokenKeyStore : Store := fun k =>
  if k = "GST:GSU:x" then some ⟨Value.set ["GSU:x"], none⟩
  else if k = "GSBU:GSU:x" then some ⟨Value.set ["GST:GSU:x"], none⟩
  else none

/-! ## Properties -/

/-! ### Cache state and session lookup -/

theorem Store.remove_same (s : Store) (k : String) : s.remove k k = none := by
  simp [Store.remove]

theorem Store.remove_other (s : Store) {k k' : String} (h : k' ≠ k) : s.remove k k' = s k' := by
  simp [Store.remove, h]

theorem Store.put_same (s : Store) (k : String) (e : Entry) : s.put k e k = some e := by
  simp [Store.put]

theorem Store.put_other (s : Store) {k k' : String} (e : Entry) (h : k' ≠ k) :
    s.put k e k' = s k' := by
  simp [Store.put, h]

theorem decodeSession_error (h : List (String × String)) (e : Err)
    (he : decodeSession h = Except.error e) : e = Err.Decode := by
  unfold decodeSession at he
  split at he
  · cases he
  · cases he; rfl

theorem HGetAll_error (s : Store) (key : String) (e : Err)
    (he : RedisCluster.HGetAll s key = Except.error e) : e = Err.WrongType := by
  unfold RedisCluster.HGetAll at he
  split at he
  · cases he
  · cases he
  · cases he; rfl

theorem LoadRedisHashToStruct_error (s : Store) (key : String) (e : Err)
    (he : RedisCluster.LoadRedisHashToStruct s key = Except.error e) :
    e = Err.WrongType ∨ e = Err.Decode := by
  unfold RedisCluster.LoadRedisHashToStruct at he
  split at he
  · rename_i e' h'
    cases he
    exact Or.inl (HGetAll_error s key _ h')
  · exact Or.inr (decodeSession_error _ e he)

theorem GetSessionV2_of_absent (c : Consts) (s : Store) (t : String)
    (h : s (tokenKey c t) = none) : GetSessionV2 c s t = Except.error Err.ErrTokenInvalid := by
  unfold tokenKey at h
  simp [GetSessionV2, RedisCluster.Exists, h]

theorem GetSessionV2_of_present (c : Consts) (s : Store) (t : String)
    (h : s (tokenKey c t) ≠ none) :
    GetSessionV2 c s t = RedisCluster.LoadRedisHashToStruct s (tokenKey c t) := by
  unfold tokenKey at h
  obtain ⟨e, he⟩ := Option.ne_none_iff_exists'.mp h
  simp only [GetSessionV2, RedisCluster.Exists, he, tokenKey]
  cases RedisCluster.LoadRedisHashToStruct s (c.ZxwSessionTokenPrefix ++ t) <;> rfl

/-- C2: for every cache state and token, `GetSessionV2` fails with
`ErrTokenInvalid` exactly when the token key does not exist; when the key
exists the result is the one of loading and decoding the hash, that is, a
session or an error other than `ErrTokenInvalid`. -/
theorem GetSessionV2_invalid_iff_absent (c : Consts) (s : Store) (t : String) :
    (GetSessionV2 c s t = Except.error Err.ErrTokenInvalid ↔ s (tokenKey c t) = none) ∧
    (s (tokenKey c t) ≠ none →
      GetSessionV2 c s t = RedisCluster.LoadRedisHashToStruct s (tokenKey c t) ∧
      ((∃ sess, GetSessionV2 c s t = Except.ok sess) ∨
        (∃ e, GetSessionV2 c s t = Except.error e ∧ e ≠ Err.ErrTokenInvalid))) := by
  have key : s (tokenKey c t) ≠ none →
      GetSessionV2 c s t = RedisCluster.LoadRedisHashToStruct s (tokenKey c t) ∧
      ((∃ sess, GetSessionV2 c s t = Except.ok sess) ∨
        (∃ e, GetSessionV2 c s t = Except.error e ∧ e ≠ Err.ErrTokenInvalid)) := by
    intro hp
    have h1 := GetSessionV2_of_present c s t hp
    refine ⟨h1, ?_⟩
    rw [h1]
    cases hl : RedisCluster.LoadRedisHashToStruct s (tokenKey c t) with
    | ok sess => exact Or.inl ⟨sess, rfl⟩
    | error e =>
      refine Or.inr ⟨e, rfl, ?_⟩
      rcases LoadRedisHashToStruct_error s _ e hl with h | h <;> simp [h]
  refine ⟨⟨fun h => ?_, GetSessionV2_of_absent c s t⟩, key⟩
  by_contra hne
  rcases (key hne).2 with ⟨sess, hs⟩ | ⟨e, he, hne'⟩
  · rw [h] at hs; cases hs
  · rw [h] at he; cases he; exact hne' rfl

/-! ### Deleting tokens -/

theorem Del_ok (c : Consts) (s s' : Store) (key : String)
    (h : RedisCluster.Del c s key = Except.ok s') : s' = s.remove key := by
  unfold RedisCluster.Del at h
  split at h
  · cases h
  · injection h with h
    exact h.symm

theorem DelTokenCache_ok (c : Consts) (s s' : Store) (t : String)
    (h : DelTokenCache c s t = Except.ok s') :
    s' = (s.remove (tokenBindingsKey c t)).remove (tokenKey c t) := by
  unfold DelTokenCache at h
  simp only at h
  cases h1 : RedisCluster.Del c s (c.ZxwSessionBindUserPrefix ++ t) with
  | error e => rw [h1] at h; cases h
  | ok s1 =>
    rw [h1] at h
    simp only at h
    cases h2 : RedisCluster.Del c s1 (c.ZxwSessionTokenPrefix ++ t) with
    | error e => rw [h2] at h; cases h
    | ok s2 =>
      rw [h2] at h
      injection h with h
      subst h
      rw [Del_ok c s1 s2 _ h2, Del_ok c s s1 _ h1]
      rfl

theorem Store.members_congr (s s' : Store) (k : String) (h : s' k = s k) :
    s'.members k = s.members k := by
  simp [Store.members, h]

theorem Store.members_of_absent (s : Store) (k : String) (h : s k = none) :
    s.members k = [] := by
  simp [Store.members, h]

/-- C8: with collision-free key families, a successful `DelTokenCache` yields
exactly the input state without the token-bindings key and the token key of
the token: both are gone, every other key is unchanged, every user-tokens key
is unchanged, and a token that was in a user's set is still in it. -/
theorem DelTokenCache_frame (c : Consts) (s s' : Store) (t : String)
    (hfree : c.CollisionFree) (h : DelTokenCache c s t = Except.ok s') :
    s' = (s.remove (tokenBindingsKey c t)).remove (tokenKey c t) ∧
    s' (tokenBindingsKey c t) = none ∧ s' (tokenKey c t) = none ∧
    (∀ k, k ≠ tokenBindingsKey c t → k ≠ tokenKey c t → s' k = s k) ∧
    (∀ u, s' (userTokensKey c u) = s (userTokensKey c u)) ∧
    (∀ u x, x ∈ s.members (userTokensKey c u) → x ∈ s'.members (userTokensKey c u)) := by
  have h := DelTokenCache_ok c s s' t h
  subst h
  have hk : ∀ k, k ≠ tokenBindingsKey c t → k ≠ tokenKey c t →
      ((s.remove (tokenBindingsKey c t)).remove (tokenKey c t)) k = s k := by
    intro k h1 h2
    rw [Store.remove_other _ h2, Store.remove_other _ h1]
  have hu : ∀ u, ((s.remove (tokenBindingsKey c t)).remove (tokenKey c t)) (userTokensKey c u)
      = s (userTokensKey c u) := fun u => hk _ (hfree u t).2 (hfree u t).1
  refine ⟨rfl, ?_, Store.remove_same _ _, hk, hu, ?_⟩
  · by_cases hc : tokenBindingsKey c t = tokenKey c t
    · rw [hc]; exact Store.remove_same _ _
    · rw [Store.remove_other _ hc]; exact Store.remove_same _ _
  · intro u x hx
    rw [Store.members_congr _ _ _ (hu u)]
    exact hx

theorem srem_post (s s' : Store) (key member : String)
    (h : RedisCluster.srem s key member = Except.ok s') :
    member ∉ s'.members key ∧ (∀ k, k ≠ key → s' k = s k) ∧
    (∀ k, s' k = none ∨ k = key ∨ s' k = s k) := by
  unfold RedisCluster.srem at h
  split at h
  · rename_i hn
    cases h
    exact ⟨by simp [Store.members, hn], fun _ _ => rfl, fun _ => Or.inr (Or.inr rfl)⟩
  · rename_i l ttl hs
    split at h
    · cases h
      refine ⟨by simp [Store.members, Store.remove_same], fun k hk => Store.remove_other _ hk,
        fun k => ?_⟩
      by_cases hk : k = key
      · exact Or.inr (Or.inl hk)
      · exact Or.inr (Or.inr (Store.remove_other _ hk))
    · cases h
      refine ⟨by simp [Store.members, Store.put_same], fun k hk => Store.put_other _ _ hk,
        fun k => ?_⟩
      by_cases hk : k = key
      · exact Or.inr (Or.inl hk)
      · exact Or.inr (Or.inr (Store.put_other _ _ hk))
  · cases h

theorem Do_SREM_ok (c : Consts) (s s' : Store) (key member : String)
    (h : RedisCluster.Do c s "SREM" [key, member] = Except.ok s') :
    RedisCluster.srem s key member = Except.ok s' := by
  simp only [RedisCluster.Do, if_true] at h
  split at h
  · cases h
  · exact h

/-- C3: when the session of the token exists with user id `sess.UserId` and
`DelUserTokenCache` succeeds, afterwards the token is not in the user-tokens
set of that user, `GetSessionV2` fails with `ErrTokenInvalid`, and the
token-bindings key of the token does not exist. -/
theorem DelUserTokenCache_post (c : Consts) (s s' : Store) (t : String) (sess : Session)
    (hs : GetSessionV2 c s t = Except.ok sess)
    (h : DelUserTokenCache c s t = Except.ok s') :
    t ∉ s'.members (userTokensKey c sess.UserId) ∧
    GetSessionV2 c s' t = Except.error Err.ErrTokenInvalid ∧
    s' (tokenBindingsKey c t) = none := by
  unfold DelUserTokenCache at h
  rw [hs] at h
  simp only at h
  cases h1 : RedisCluster.Do c s "SREM" [c.ZxwSessionUserPrefix ++ sess.UserId, t] with
  | error e => rw [h1] at h; cases h
  | ok s1 =>
    rw [h1] at h
    simp only at h
    cases h2 : DelTokenCache c s1 t with
    | error e => rw [h2] at h; cases h
    | ok s2 =>
      rw [h2] at h
      injection h with h
      subst h
      have h2' := DelTokenCache_ok c s1 s2 t h2
      subst h2'
      have hm := (srem_post s s1 _ t (Do_SREM_ok c s s1 _ t h1)).1
      have htok : ((s1.remove (tokenBindingsKey c t)).remove (tokenKey c t)) (tokenKey c t) = none :=
        Store.remove_same _ _
      refine ⟨?_, GetSessionV2_of_absent c _ t htok, ?_⟩
      · intro hmem
        apply hm
        unfold userTokensKey at hmem
        by_cases h2 : c.ZxwSessionUserPrefix ++ sess.UserId = tokenKey c t
        · rw [h2, Store.members_of_absent _ _ (Store.remove_same _ _)] at hmem
          cases hmem
        · by_cases h3 : c.ZxwSessionUserPrefix ++ sess.UserId = tokenBindingsKey c t
          · rw [Store.members_congr _ _ _ (Store.remove_other _ h2), h3,
              Store.members_of_absent _ _ (Store.remove_same _ _)] at hmem
            cases hmem
          · rw [Store.members_congr _ _ _ (Store.remove_other _ h2),
              Store.members_congr _ _ _ (Store.remove_other _ h3)] at hmem
            exact hmem
      · by_cases hc : tokenBindingsKey c t = tokenKey c t
        · rw [hc]; exact Store.remove_same _ _
        · rw [Store.remove_other _ hc]; exact Store.remove_same _ _

theorem CleanUserTokenCacheLoop_post (c : Consts) (l : List String) :
    ∀ s s' : Store, CleanUserTokenCacheLoop c l s = Except.ok s' →
      (∀ k, s k = none → s' k = none) ∧ (∀ x ∈ l, s' (tokenKey c x) = none) := by
  induction l with
  | nil =>
    intro s s' h
    injection h with h
    subst h
    exact ⟨fun _ h => h, by simp⟩
  | cons t l ih =>
    intro s s' h
    unfold CleanUserTokenCacheLoop at h
    cases h1 : DelTokenCache c s t with
    | error e => rw [h1] at h; cases h
    | ok s1 =>
      rw [h1] at h
      simp only at h
      have e1 := DelTokenCache_ok c s s1 t h1
      obtain ⟨h2, h3⟩ := ih s1 s' h
      refine ⟨?_, ?_⟩
      · intro k hk
        apply h2
        rw [e1]
        simp [Store.remove, hk]
      · intro x hx
        rcases List.mem_cons.mp hx with rfl | hx
        · apply h2
          rw [e1]
          exact Store.remove_same _ _
        · exact h3 x hx

/-- C4: when the user-tokens set of the user of the representative token `r`
is the list `T`, `r` is in `T` with a live session, and `CleanUserTokenCache`
succeeds, afterwards `GetSessionV2` fails with `ErrTokenInvalid` for every
token of `T` and the user-tokens key of the user no longer exists. -/
theorem CleanUserTokenCache_post (c : Consts) (s s' : Store) (r : String) (sess : Session)
    (T : List String)
    (hs : GetSessionV2 c s r = Except.ok sess)
    (hT : s.members (userTokensKey c sess.UserId) = T) (hr : r ∈ T)
    (h : CleanUserTokenCache c s r = Except.ok s') :
    (∀ x ∈ T, GetSessionV2 c s' x = Except.error Err.ErrTokenInvalid) ∧
    s' (userTokensKey c sess.UserId) = none := by
  unfold CleanUserTokenCache at h
  rw [hs] at h
  simp only at h
  have hset : redisStrings (RedisCluster.Members s (c.ZxwSessionUserPrefix ++ sess.UserId))
      = Except.ok T := by
    unfold userTokensKey Store.members at hT
    unfold RedisCluster.Members
    split at hT
    · rename_i l ttl hk
      rw [hk, hT]; rfl
    · subst hT; cases hr
  rw [hset] at h
  simp only at h
  cases hd : RedisCluster.Del c s (c.ZxwSessionUserPrefix ++ sess.UserId) with
  | error e => rw [hd] at h; cases h
  | ok s1 =>
    rw [hd] at h
    simp only at h
    have e1 := Del_ok c s s1 _ hd
    obtain ⟨h2, h3⟩ := CleanUserTokenCacheLoop_post c T s1 s' h
    refine ⟨fun x hx => GetSessionV2_of_absent c _ x (h3 x hx), h2 _ ?_⟩
    rw [e1]
    exact Store.remove_same _ _

/-! ### Expiry policy -/

theorem getTokenExpire_cases (c : Consts) (rsv2 : Session)
    (hwa : c.LoginTypeWeb ≠ c.LoginTypeApp) (hwx : c.LoginTypeWeb ≠ c.LoginTypeWx)
    (hwl : c.LoginTypeWeb ≠ c.LoginTypeAlipay) (hax : c.LoginTypeApp ≠ c.LoginTypeWx)
    (hal : c.LoginTypeApp ≠ c.LoginTypeAlipay) :
    (rsv2.LoginType = c.LoginTypeWeb → getTokenExpire c rsv2 = c.RedisSessionTimeoutWeb) ∧
    (rsv2.LoginType = c.LoginTypeApp → getTokenExpire c rsv2 = c.RedisSessionTimeoutApp) ∧
    (rsv2.LoginType = c.LoginTypeWx → getTokenExpire c rsv2 = c.RedisSessionTimeoutWx) ∧
    (rsv2.LoginType = c.LoginTypeAlipay → getTokenExpire c rsv2 = c.RedisSessionTimeoutWx) ∧
    (rsv2.LoginType ≠ c.LoginTypeWeb → rsv2.LoginType ≠ c.LoginTypeWx →
      rsv2.LoginType ≠ c.LoginTypeAlipay → getTokenExpire c rsv2 = c.RedisSessionTimeoutApp) := by
  refine ⟨?_, ?_, ?_, ?_, ?_⟩
  · intro h; simp [getTokenExpire, h]
  · intro h; simp [getTokenExpire, h, hwa.symm, hax, hal]
  · intro h; simp [getTokenExpire, h, hwx.symm]
  · intro h; simp [getTokenExpire, h, hwl.symm]
  · intro h1 h2 h3; simp [getTokenExpire, h1, h2, h3]

/-! ### Decimal text and hash fields -/

theorem digitVal_digitChar (d : Nat) (h : d < 10) : digitVal (digitChar d) = some d := by
  interval_cases d <;> rfl

theorem digitChar_ne_sign (d : Nat) (h : d < 10) : digitChar d ≠ '-' ∧ digitChar d ≠ '+' := by
  interval_cases d <;> decide

theorem parseDigits_append_digit (l : List Char) (d : Nat) (h : d < 10) :
    ∀ acc, parseDigits (l ++ [digitChar d]) acc
      = (parseDigits l acc).map (fun n => n * 10 + d) := by
  induction l with
  | nil => intro acc; simp [parseDigits, digitVal_digitChar d h]
  | cons c cs ih =>
    intro acc
    simp only [List.cons_append, parseDigits]
    cases digitVal c with
    | none => rfl
    | some v => exact ih _

theorem parseDigits_natDigitsAux (fuel : Nat) :
    ∀ n, n ≤ fuel → parseDigits (natDigitsAux fuel n) 0 = some n := by
  induction fuel with
  | zero =>
    intro n hn
    have : n = 0 := by omega
    subst this
    rfl
  | succ fuel ih =>
    intro n hn
    unfold natDigitsAux
    split
    · rename_i h10
      simp [parseDigits, digitVal_digitChar n h10]
    · rename_i h10
      rw [parseDigits_append_digit _ _ (Nat.mod_lt _ (by norm_num)), ih (n / 10) (by omega)]
      simp only [Option.map_some']
      congr 1
      omega

theorem natDigitsAux_head (fuel n : Nat) :
    ∃ d cs, d < 10 ∧ natDigitsAux fuel n = digitChar d :: cs := by
  induction fuel generalizing n with
  | zero => exact ⟨n % 10, [], Nat.mod_lt _ (by norm_num), rfl⟩
  | succ fuel ih =>
    unfold natDigitsAux
    split
    · rename_i h10
      exact ⟨n, [], h10, rfl⟩
    · obtain ⟨d, cs, hd, he⟩ := ih (n / 10)
      exact ⟨d, cs ++ [digitChar (n % 10)], hd, by rw [he]; rfl⟩

theorem parseUnsigned_natDigits (n : Nat) : parseUnsigned (natDigits n) = some n := by
  obtain ⟨d, cs, _, he⟩ := natDigitsAux_head n n
  have h := parseDigits_natDigitsAux n n (le_refl n)
  unfold natDigits
  rw [he] at h ⊢
  exact h

theorem strconvParseUint_FormatUint (n : Nat) (h : n < 2 ^ 64) :
    strconvParseUint (FormatUint n) = some n := by
  have h' : n < 18446744073709551616 := by norm_num at h; exact h
  simp [strconvParseUint, FormatUint, parseUnsigned_natDigits, h']

theorem strconvParseInt_FormatInt (i : Int) (hlo : -(2 : Int) ^ 63 ≤ i) (hhi : i < 2 ^ 63) :
    strconvParseInt (FormatInt i) = some i := by
  unfold FormatInt
  split
  · rename_i hneg
    have hle : i.natAbs ≤ 2 ^ 63 := by omega
    simp only [strconvParseInt, if_true, parseUnsigned_natDigits, hle]
    congr 1
    omega
  · rename_i hneg
    obtain ⟨d, cs, hd, he⟩ := natDigitsAux_head i.natAbs i.natAbs
    have hp := parseUnsigned_natDigits i.natAbs
    unfold natDigits at hp ⊢
    rw [he] at hp
    have hlt : i.natAbs < 2 ^ 63 := by omega
    simp only [strconvParseInt, he, (digitChar_ne_sign d hd).1, (digitChar_ne_sign d hd).2,
      if_false, hp, hlt, if_true]
    congr 1
    omega

theorem hget_hset_same (h : List (String × String)) (f v : String) :
    hget (hset h f v) f = some v := by
  induction h with
  | nil => simp [hset, hget]
  | cons p ps ih =>
    by_cases hp : p.1 = f
    · simp [hset, hget, hp]
    · simp [hset, hget, hp, ih]

theorem hget_hset_other (h : List (String × String)) (f g v : String) (hne : g ≠ f) :
    hget (hset h f v) g = hget h g := by
  have hf : ¬ f = g := fun h => hne h.symm
  induction h with
  | nil => simp [hset, hget, hf]
  | cons p ps ih =>
    by_cases hp : p.1 = f
    · have hg : ¬ p.1 = g := by rw [hp]; exact hf
      simp [hset, hget, hp, hf, hg]
    · by_cases hg : p.1 = g
      · simp [hset, hget, hp, hg]
        simp [hne, hget, hg]
      · simp [hset, hget, hp, hg, ih]

theorem decodeSession_hmset (h : List (String × String)) (u : String) (lt au cd ex : Int)
    (sc : Nat)
    (hlt : -(2 : Int) ^ 63 ≤ lt ∧ lt < 2 ^ 63) (hau : -(2 : Int) ^ 63 ≤ au ∧ au < 2 ^ 63)
    (hcd : -(2 : Int) ^ 63 ≤ cd ∧ cd < 2 ^ 63) (hex : -(2 : Int) ^ 63 ≤ ex ∧ ex < 2 ^ 63)
    (hsc : sc < 2 ^ 64) :
    decodeSession (hmset h
      [("user_id", u), ("login_type", FormatInt lt), ("auth_type", FormatInt au),
       ("creation_data", FormatInt cd), ("expires_in", FormatInt ex),
       ("scope", FormatUint sc)]) = Except.ok ⟨u, lt, au, cd, ex, sc⟩ := by
  have e1 : ("user_id" : String) ≠ "login_type" := by decide
  have e2 : ("user_id" : String) ≠ "auth_type" := by decide
  have e3 : ("user_id" : String) ≠ "creation_data" := by decide
  have e4 : ("user_id" : String) ≠ "expires_in" := by decide
  have e5 : ("user_id" : String) ≠ "scope" := by decide
  have e6 : ("login_type" : String) ≠ "auth_type" := by decide
  have e7 : ("login_type" : String) ≠ "creation_data" := by decide
  have e8 : ("login_type" : String) ≠ "expires_in" := by decide
  have e9 : ("login_type" : String) ≠ "scope" := by decide
  have e10 : ("auth_type" : String) ≠ "creation_data" := by decide
  have e11 : ("auth_type" : String) ≠ "expires_in" := by decide
  have e12 : ("auth_type" : String) ≠ "scope" := by decide
  have e13 : ("creation_data" : String) ≠ "expires_in" := by decide
  have e14 : ("creation_data" : String) ≠ "scope" := by decide
  have e15 : ("expires_in" : String) ≠ "scope" := by decide
  have g1 : hget (hmset h
      [("user_id", u), ("login_type", FormatInt lt), ("auth_type", FormatInt au),
       ("creation_data", FormatInt cd), ("expires_in", FormatInt ex),
       ("scope", FormatUint sc)]) "user_id" = some u := by
    simp only [hmset, List.foldl]
    rw [hget_hset_other _ _ _ _ e5, hget_hset_other _ _ _ _ e4, hget_hset_other _ _ _ _ e3,
      hget_hset_other _ _ _ _ e2, hget_hset_other _ _ _ _ e1, hget_hset_same]
  have g2 : hget (hmset h
      [("user_id", u), ("login_type", FormatInt lt), ("auth_type", FormatInt au),
       ("creation_data", FormatInt cd), ("expires_in", FormatInt ex),
       ("scope", FormatUint sc)]) "login_type" = some (FormatInt lt) := by
    simp only [hmset, List.foldl]
    rw [hget_hset_other _ _ _ _ e9, hget_hset_other _ _ _ _ e8, hget_hset_other _ _ _ _ e7,
      hget_hset_other _ _ _ _ e6, hget_hset_same]
  have g3 : hget (hmset h
      [("user_id", u), ("login_type", FormatInt lt), ("auth_type", FormatInt au),
       ("creation_data", FormatInt cd), ("expires_in", FormatInt ex),
       ("scope", FormatUint sc)]) "auth_type" = some (FormatInt au) := by
    simp only [hmset, List.foldl]
    rw [hget_hset_other _ _ _ _ e12, hget_hset_other _ _ _ _ e11, hget_hset_other _ _ _ _ e10,
      hget_hset_same]
  have g4 : hget (hmset h
      [("user_id", u), ("login_type", FormatInt lt), ("auth_type", FormatInt au),
       ("creation_data", FormatInt cd), ("expires_in", FormatInt ex),
       ("scope", FormatUint sc)]) "creation_data" = some (FormatInt cd) := by
    simp only [hmset, List.foldl]
    rw [hget_hset_other _ _ _ _ e14, hget_hset_other _ _ _ _ e13, hget_hset_same]
  have g5 : hget (hmset h
      [("user_id", u), ("login_type", FormatInt lt), ("auth_type", FormatInt au),
       ("creation_data", FormatInt cd), ("expires_in", FormatInt ex),
       ("scope", FormatUint sc)]) "expires_in" = some (FormatInt ex) := by
    simp only [hmset, List.foldl]
    rw [hget_hset_other _ _ _ _ e15, hget_hset_same]
  have g6 : hget (hmset h
      [("user_id", u), ("login_type", FormatInt lt), ("auth_type", FormatInt au),
       ("creation_data", FormatInt cd), ("expires_in", FormatInt ex),
       ("scope", FormatUint sc)]) "scope" = some (FormatUint sc) := by
    simp only [hmset, List.foldl]
    rw [hget_hset_same]
  simp only [decodeSession, fieldInt, fieldUint, fieldString, g1, g2, g3, g4, g5, g6,
    strconvParseInt_FormatInt _ hlt.1 hlt.2, strconvParseInt_FormatInt _ hau.1 hau.2,
    strconvParseInt_FormatInt _ hcd.1 hcd.2, strconvParseInt_FormatInt _ hex.1 hex.2,
    strconvParseUint_FormatUint _ hsc]

theorem GetSessionV2_of_hash (c : Consts) (s : Store) (t : String)
    (h : List (String × String)) (ttl : Option Int)
    (hk : s (tokenKey c t) = some ⟨Value.hash h, ttl⟩) :
    GetSessionV2 c s t = decodeSession h := by
  rw [GetSessionV2_of_present c s t (by rw [hk]; simp)]
  simp [RedisCluster.LoadRedisHashToStruct, RedisCluster.HGetAll, hk]

theorem GetSessionV2_ok_hash (c : Consts) (s : Store) (t : String) (sess : Session)
    (hs : GetSessionV2 c s t = Except.ok sess) :
    ∃ h ttl, s (tokenKey c t) = some ⟨Value.hash h, ttl⟩ ∧ decodeSession h = Except.ok sess := by
  cases hk : s (tokenKey c t) with
  | none => rw [GetSessionV2_of_absent c s t hk] at hs; cases hs
  | some e =>
    rw [GetSessionV2_of_present c s t (by rw [hk]; simp)] at hs
    obtain ⟨v, ttl⟩ := e
    cases v with
    | hash h =>
      refine ⟨h, ttl, rfl, ?_⟩
      simpa [RedisCluster.LoadRedisHashToStruct, RedisCluster.HGetAll, hk] using hs
    | str v => simp [RedisCluster.LoadRedisHashToStruct, RedisCluster.HGetAll, hk] at hs
    | set l => simp [RedisCluster.LoadRedisHashToStruct, RedisCluster.HGetAll, hk] at hs

theorem HMSet_ok (c : Consts) (s s' : Store) (key : String) (pairs : List (String × String))
    (h : RedisCluster.HMSet c s key pairs = Except.ok s') :
    RedisCluster.hmsetKey s key pairs = Except.ok s' := by
  unfold RedisCluster.HMSet at h
  split at h
  · cases h
  · exact h

theorem Sadd_ok (c : Consts) (s s' : Store) (key member : String)
    (h : RedisCluster.Sadd c s key member = Except.ok s') :
    RedisCluster.sadd s key member = Except.ok s' := by
  unfold RedisCluster.Sadd at h
  split at h
  · cases h
  · exact h

theorem ToCache_session (c : Consts) (now : Int) (s s1 : Store) (t : String) (u : Nat)
    (hr : c.InRange now) (h1 : ToCache c now s t u = Except.ok s1) :
    GetSessionV2 c s1 t =
      Except.ok ⟨FormatUint u, c.LoginTypeWeb, c.AuthPwd, now, 0, c.AdminScope⟩ := by
  obtain ⟨hlt, hau, hcd, hsc⟩ := hr
  have hex : -(2 : Int) ^ 63 ≤ 0 ∧ (0 : Int) < 2 ^ 63 := by norm_num
  have hdec := fun h => decodeSession_hmset h (FormatUint u) c.LoginTypeWeb c.AuthPwd now 0
    c.AdminScope hlt hau hcd hex hsc
  unfold ToCache at h1
  simp only [GetUserScope, if_true] at h1
  split at h1
  · cases h1
  rename_i s0 heq
  injection h1 with h1
  subst h1
  have h1 := HMSet_ok c s _ _ _ heq
  unfold RedisCluster.hmsetKey at h1
  cases hk : s (c.ZxwSessionTokenPrefix ++ t) with
  | none =>
    rw [hk] at h1
    injection h1 with h1
    subst h1
    exact (GetSessionV2_of_hash c _ t _ none (Store.put_same s (tokenKey c t) _)).trans (hdec [])
  | some e =>
    obtain ⟨v, ttl⟩ := e
    rw [hk] at h1
    cases v with
    | hash h =>
      injection h1 with h1
      subst h1
      exact (GetSessionV2_of_hash c _ t _ ttl (Store.put_same s (tokenKey c t) _)).trans (hdec h)
    | str v => cases h1
    | set l => cases h1

theorem sadd_post (s s' : Store) (key member : String)
    (h : RedisCluster.sadd s key member = Except.ok s') :
    member ∈ s'.members key ∧ (∀ k, k ≠ key → s' k = s k) ∧
    (∀ k x, x ∈ s.members k → x ∈ s'.members k) ∧
    (∀ k f ttl, s k = some ⟨Value.hash f, ttl⟩ → s' k = s k) ∧
    (∀ k v ttl, s k = some ⟨Value.str v, ttl⟩ → s' k = s k) := by
  unfold RedisCluster.sadd at h
  split at h
  · rename_i hn
    cases h
    refine ⟨by simp [Store.members, Store.put_same], fun k hk => Store.put_other _ _ hk,
      fun k x hx => ?_, fun k f ttl hk => ?_, fun k v ttl hk => ?_⟩
    · by_cases hk : k = key
      · subst hk; simp [Store.members, hn] at hx
      · rw [Store.members_congr _ _ _ (Store.put_other _ _ hk)]; exact hx
    · have : k ≠ key := by rintro rfl; rw [hn] at hk; cases hk
      exact Store.put_other _ _ this
    · have : k ≠ key := by rintro rfl; rw [hn] at hk; cases hk
      exact Store.put_other _ _ this
  · rename_i l ttl hs
    split at h
    · rename_i hmem
      cases h
      exact ⟨by simp [Store.members, hs, hmem], fun _ _ => rfl, fun _ _ hx => hx,
        fun _ _ _ _ => rfl, fun _ _ _ _ => rfl⟩
    · cases h
      refine ⟨by simp [Store.members, Store.put_same], fun k hk => Store.put_other _ _ hk,
        fun k x hx => ?_, fun k f ttl hk => ?_, fun k v ttl hk => ?_⟩
      · by_cases hk : k = key
        · subst hk
          simp only [Store.members, hs] at hx
          simp [Store.members, Store.put_same, hx]
        · rw [Store.members_congr _ _ _ (Store.put_other _ _ hk)]; exact hx
      · have : k ≠ key := by rintro rfl; rw [hs] at hk; cases hk
        exact Store.put_other _ _ this
      · have : k ≠ key := by rintro rfl; rw [hs] at hk; cases hk
        exact Store.put_other _ _ this
  · cases h

theorem sadd_maxCount (c : Consts) (s s' : Store) (key member : String)
    (h : RedisCluster.sadd s key member = Except.ok s') :
    getUserTokenMaxCount c s' = getUserTokenMaxCount c s := by
  by_cases hk : c.ZxwSessionUserMaxTokenPrefix = key
  · unfold RedisCluster.sadd at h
    split at h
    · rename_i hn
      injection h with h
      subst h
      simp [getUserTokenMaxCount, RedisCluster.GetKey, hk, hn, Store.put_same, redisInt]
    · rename_i l ttl hs
      split at h
      · injection h with h
        subst h
        rfl
      · injection h with h
        subst h
        simp [getUserTokenMaxCount, RedisCluster.GetKey, hk, hs, Store.put_same, redisInt]
    · cases h
  · have := (sadd_post s s' key member h).2.1 _ hk
    simp [getUserTokenMaxCount, RedisCluster.GetKey, this]

theorem SyncUserTokenCache_post (c : Consts) (s s' : Store) (t : String) (sess : Session)
    (hs : GetSessionV2 c s t = Except.ok sess)
    (h : SyncUserTokenCache c s t = Except.ok s') :
    GetSessionV2 c s' t = Except.ok sess ∧
    t ∈ s'.members (userTokensKey c sess.UserId) ∧
    userTokensKey c sess.UserId ∈ s'.members (tokenBindingsKey c t) ∧
    (∀ k x, x ∈ s.members k → x ∈ s'.members k) ∧
    getUserTokenMaxCount c s' = getUserTokenMaxCount c s := by
  unfold SyncUserTokenCache at h
  rw [hs] at h
  simp only at h
  cases h1 : RedisCluster.Sadd c s (c.ZxwSessionUserPrefix ++ sess.UserId) t with
  | error e => rw [h1] at h; cases h
  | ok s1 =>
    rw [h1] at h
    simp only at h
    cases h2 : RedisCluster.Sadd c s1 (c.ZxwSessionBindUserPrefix ++ t)
        (c.ZxwSessionUserPrefix ++ sess.UserId) with
    | error e => rw [h2] at h; cases h
    | ok s2 =>
      rw [h2] at h
      injection h with h
      subst h
      obtain ⟨a1, a2, a3, a4, a5⟩ := sadd_post _ _ _ _ (Sadd_ok c _ _ _ _ h1)
      obtain ⟨b1, b2, b3, b4, b5⟩ := sadd_post _ _ _ _ (Sadd_ok c _ _ _ _ h2)
      obtain ⟨f, ttl, hk, hd⟩ := GetSessionV2_ok_hash c s t sess hs
      have hk1 : s1 (tokenKey c t) = some ⟨Value.hash f, ttl⟩ := by rw [a4 _ _ _ hk]; exact hk
      have hk2 : s2 (tokenKey c t) = some ⟨Value.hash f, ttl⟩ := by rw [b4 _ _ _ hk1]; exact hk1
      refine ⟨?_, b3 _ _ a1, b1, fun k x hx => b3 _ _ (a3 _ _ hx), ?_⟩
      · rw [GetSessionV2_of_hash c s2 t f ttl hk2]; exact hd
      · rw [sadd_maxCount c _ _ _ _ (Sadd_ok c _ _ _ _ h2),
          sadd_maxCount c _ _ _ _ (Sadd_ok c _ _ _ _ h1)]

theorem uint_of_nat (u : Nat) (hu : u < 2 ^ 64) : uint (u : Int) = u := by
  unfold uint
  have : ((u : Int) % 2 ^ 64) = u := Int.emod_eq_of_lt (by omega) (by exact_mod_cast hu)
  rw [this]
  rfl

theorem ParseInt_ne_of_large (c : Consts) (b : String) (u : Nat) (hu : 2 ^ 63 ≤ u) :
    c.ParseInt b 10 ≠ (u : Int) := by
  intro h
  have hr := (c.ParseInt_int b 10 (by norm_num) (by norm_num)).2
  rw [h] at hr
  have : (u : Int) < 2 ^ 63 := hr
  omega

/-- C1, as amended: when `ToCache` of token `t` for user id `u` and then
`SyncUserTokenCache` of `t` both succeed, afterwards `GetAuthId` returns
`uint(libs.ParseInt(decimal text of u, 10))` without error, which is `u` for
every `u` below `2^63` when `libs.ParseInt` reads decimal text; `t` is in the
user-tokens set of `u`, and the name of that user-tokens key is in the
token-bindings set of `t`. The constants fit their machine types. -/
theorem ToCache_SyncUserTokenCache_post (c : Consts) (now : Int) (s s1 s2 : Store)
    (t : String) (u : Nat) (hr : c.InRange now)
    (h1 : ToCache c now s t u = Except.ok s1)
    (h2 : SyncUserTokenCache c s1 t = Except.ok s2) :
    GetAuthId c s2 t = Except.ok (uint (c.ParseInt (FormatUint u) 10)) ∧
    (c.ParsesDecimal → u < 2 ^ 63 → GetAuthId c s2 t = Except.ok u) ∧
    t ∈ s2.members (userTokensKey c (FormatUint u)) ∧
    userTokensKey c (FormatUint u) ∈ s2.members (tokenBindingsKey c t) := by
  have hs := ToCache_session c now s s1 t u hr h1
  obtain ⟨p1, p2, p3, _, _⟩ := SyncUserTokenCache_post c s1 s2 t _ hs h2
  have hg : GetAuthId c s2 t = Except.ok (uint (c.ParseInt (FormatUint u) 10)) := by
    simp only [GetAuthId, p1]
  refine ⟨hg, fun hp hu => ?_, p2, p3⟩
  rw [hg, hp u hu, uint_of_nat u (by omega)]

/-! ### Device limit -/

theorem getUserTokenCount_eq (c : Consts) (s : Store) (u : String) :
    getUserTokenCount c s u = (userTokenCard c s u : Int) := by
  unfold getUserTokenCount userTokenCard Store.members userTokensKey RedisCluster.Scard
  cases hk : s (c.ZxwSessionUserPrefix ++ u) with
  | none => simp [redisInt]
  | some e =>
    obtain ⟨v, ttl⟩ := e
    cases v <;> simp [redisInt]

theorem getUserTokenMaxCount_eq (c : Consts) (s : Store) :
    getUserTokenMaxCount c s = configuredMax c s := by
  unfold getUserTokenMaxCount configuredMax RedisCluster.GetKey
  cases hk : s c.ZxwSessionUserMaxTokenPrefix with
  | none => simp [redisInt]
  | some e =>
    obtain ⟨v, ttl⟩ := e
    cases v with
    | str v =>
      simp only [redisInt]
      cases strconvParseInt v <;> rfl
    | hash h => simp [redisInt]
    | set l => simp [redisInt]

theorem sadd_length (s s' : Store) (key member : String)
    (h : RedisCluster.sadd s key member = Except.ok s') :
    (∀ k, (s.members k).length ≤ (s'.members k).length) ∧
    (member ∉ s.members key → (s'.members key).length = (s.members key).length + 1) := by
  unfold RedisCluster.sadd at h
  split at h
  · rename_i hn
    injection h with h
    subst h
    refine ⟨fun k => ?_, fun _ => by simp [Store.members, Store.put_same, hn]⟩
    by_cases hk : k = key
    · subst hk; simp [Store.members, hn]
    · rw [Store.members_congr _ _ _ (Store.put_other _ _ hk)]
  · rename_i l ttl hs
    split at h
    · rename_i hmem
      injection h with h
      subst h
      exact ⟨fun _ => le_refl _, fun hn => absurd (by simpa [Store.members, hs] using hmem) hn⟩
    · injection h with h
      subst h
      refine ⟨fun k => ?_, fun _ => by simp [Store.members, Store.put_same, hs]⟩
      by_cases hk : k = key
      · subst hk; simp [Store.members, Store.put_same, hs]
      · rw [Store.members_congr _ _ _ (Store.put_other _ _ hk)]
  · cases h

theorem SyncUserTokenCache_card (c : Consts) (s s' : Store) (t : String) (sess : Session)
    (hs : GetSessionV2 c s t = Except.ok sess)
    (hnew : t ∉ s.members (userTokensKey c sess.UserId))
    (h : SyncUserTokenCache c s t = Except.ok s') :
    userTokenCard c s sess.UserId + 1 ≤ userTokenCard c s' sess.UserId := by
  unfold SyncUserTokenCache at h
  rw [hs] at h
  simp only at h
  cases h1 : RedisCluster.Sadd c s (c.ZxwSessionUserPrefix ++ sess.UserId) t with
  | error e => rw [h1] at h; cases h
  | ok s1 =>
    rw [h1] at h
    simp only at h
    cases h2 : RedisCluster.Sadd c s1 (c.ZxwSessionBindUserPrefix ++ t)
        (c.ZxwSessionUserPrefix ++ sess.UserId) with
    | error e => rw [h2] at h; cases h
    | ok s2 =>
      rw [h2] at h
      injection h with h
      subst h
      have a := (sadd_length _ _ _ _ (Sadd_ok c _ _ _ _ h1)).2 hnew
      have b := (sadd_length _ _ _ _ (Sadd_ok c _ _ _ _ h2)).1
        (c.ZxwSessionUserPrefix ++ sess.UserId)
      unfold userTokenCard userTokensKey
      omega

/-- C5: `IsUserTokenOver` is true exactly when the cardinality of the user's
token set is at least the configured maximum (the well-formed integer under
the max-token key, else the default); with exactly `max - 1` tokens the result
is false, and after a successful `SyncUserTokenCache` of one more token of
that user that is not yet in the set the result is true. -/
theorem IsUserTokenOver_iff_card_ge_max (c : Consts) (s s' : Store) (u t : String)
    (sess : Session) :
    (IsUserTokenOver c s u = true ↔ (userTokenCard c s u : Int) ≥ configuredMax c s) ∧
    ((userTokenCard c s u : Int) = configuredMax c s - 1 →
      IsUserTokenOver c s u = false ∧
      (GetSessionV2 c s t = Except.ok sess → sess.UserId = u →
        t ∉ s.members (userTokensKey c u) → SyncUserTokenCache c s t = Except.ok s' →
        IsUserTokenOver c s' u = true)) := by
  have hiff : ∀ s0 : Store, IsUserTokenOver c s0 u = true ↔
      (userTokenCard c s0 u : Int) ≥ configuredMax c s0 := by
    intro s0
    unfold IsUserTokenOver
    rw [getUserTokenCount_eq, getUserTokenMaxCount_eq]
    simp
  refine ⟨hiff s, fun hcard => ⟨?_, fun hs hu hnew hsync => ?_⟩⟩
  · cases hb : IsUserTokenOver c s u with
    | false => rfl
    | true =>
      have := (hiff s).mp hb
      omega
  · subst hu
    have hc := SyncUserTokenCache_card c s s' t sess hs hnew hsync
    have hm := (SyncUserTokenCache_post c s s' t sess hs hsync).2.2.2.2
    rw [getUserTokenMaxCount_eq, getUserTokenMaxCount_eq] at hm
    rw [hiff s', hm]
    omega

/-- C7, as amended: `GetAuthId` fails with `ErrTokenInvalid` when the token
key does not exist; whenever `GetSessionV2` yields a session it returns
`uint(libs.ParseInt(UserId, 10))` with no error, whatever the stored user id
is; and its only errors are those of `GetSessionV2`. -/
theorem GetAuthId_result (c : Consts) (s : Store) (t : String) :
    (s (tokenKey c t) = none → GetAuthId c s t = Except.error Err.ErrTokenInvalid) ∧
    (∀ sess, GetSessionV2 c s t = Except.ok sess →
      GetAuthId c s t = Except.ok (uint (c.ParseInt sess.UserId 10))) ∧
    (∀ e, GetSessionV2 c s t = Except.error e → GetAuthId c s t = Except.error e) := by
  refine ⟨fun h => ?_, fun sess h => ?_, fun e h => ?_⟩
  · simp [GetAuthId, GetSessionV2_of_absent c s t h]
  · simp [GetAuthId, h]
  · simp [GetAuthId, h]

/-! ### Expiring the bindings of a token -/

theorem sremEntry_set_empty (l : List String) (ttl : Option Int) (m : String)
    (hf : l.filter (fun x => x ≠ m) = []) :
    sremEntry (some ⟨Value.set l, ttl⟩) m = none := by
  unfold sremEntry
  exact if_pos hf

theorem sremEntry_set_rest (l : List String) (ttl : Option Int) (m : String)
    (hf : ¬ l.filter (fun x => x ≠ m) = []) :
    sremEntry (some ⟨Value.set l, ttl⟩) m
      = some ⟨Value.set (l.filter (fun x => x ≠ m)), ttl⟩ := by
  unfold sremEntry
  exact if_neg hf

theorem filter_ne_idem (l : List String) (m : String) :
    (l.filter (fun x => x ≠ m)).filter (fun x => x ≠ m) = l.filter (fun x => x ≠ m) := by
  rw [List.filter_filter]
  congr 1
  funext a
  simp

theorem srem_eq (s s' : Store) (key member : String)
    (h : RedisCluster.srem s key member = Except.ok s') :
    s' = fun k => if k = key then sremEntry (s key) member else s k := by
  unfold RedisCluster.srem at h
  funext k
  split at h
  · rename_i hn
    injection h with h
    subst h
    by_cases hk : k = key
    · subst hk; simp [sremEntry, hn]
    · simp [hk]
  · rename_i l ttl hs
    split at h
    · rename_i hf
      injection h with h
      subst h
      by_cases hk : k = key
      · subst hk
        rw [if_pos rfl, hs, sremEntry_set_empty l ttl member hf, Store.remove_same]
      · rw [if_neg hk, Store.remove_other _ hk]
    · rename_i hf
      injection h with h
      subst h
      by_cases hk : k = key
      · subst hk
        rw [if_pos rfl, hs, sremEntry_set_rest l ttl member hf, Store.put_same]
      · rw [if_neg hk, Store.put_other _ _ hk]
  · cases h

theorem sremEntry_idem (e : Option Entry) (m : String) :
    sremEntry (sremEntry e m) m = sremEntry e m := by
  cases e with
  | none => rfl
  | some e =>
    obtain ⟨v, ttl⟩ := e
    cases v with
    | str v => rfl
    | hash h => rfl
    | set l =>
      by_cases hf : l.filter (fun x => x ≠ m) = []
      · rw [sremEntry_set_empty l ttl m hf]; rfl
      · rw [sremEntry_set_rest l ttl m hf,
          sremEntry_set_rest _ ttl m (by rw [filter_ne_idem]; exact hf), filter_ne_idem]

theorem sremEntry_not_mem (e : Option Entry) (m : String) (s : Store) (k : String)
    (h : s k = sremEntry e m) : m ∉ s.members k := by
  cases e with
  | none => simp [Store.members, h, sremEntry]
  | some e =>
    obtain ⟨v, ttl⟩ := e
    cases v with
    | str v => simp [Store.members, h, sremEntry]
    | hash f => simp [Store.members, h, sremEntry]
    | set l =>
      by_cases hf : l.filter (fun x => x ≠ m) = []
      · rw [sremEntry_set_empty l ttl m hf] at h
        simp [Store.members, h]
      · rw [sremEntry_set_rest l ttl m hf] at h
        simp [Store.members, h]

theorem UserTokenExpiredLoop_eq (c : Consts) (t : String) (l : List String) :
    ∀ s s' : Store, UserTokenExpiredLoop c t l s = Except.ok s' →
      s' = fun k => if k ∈ l ∧ stringsContains k c.ZxwSessionUserPrefix = true
        then sremEntry (s k) t else s k := by
  induction l with
  | nil =>
    intro s s' h
    injection h with h
    subst h
    funext k
    simp
  | cons v vs ih =>
    intro s s' h
    unfold UserTokenExpiredLoop at h
    by_cases hc : stringsContains v c.ZxwSessionUserPrefix = true
    · simp only [hc, Bool.not_true, Bool.false_eq_true, if_false] at h
      cases h1 : RedisCluster.Do c s "SREM" [v, t] with
      | error e => rw [h1] at h; cases h
      | ok s1 =>
        rw [h1] at h
        simp only at h
        have e1 := srem_eq s s1 v t (Do_SREM_ok c s s1 v t h1)
        have e2 := ih s1 s' h
        rw [e2, e1]
        funext k
        by_cases hkv : k = v
        · subst hkv
          by_cases hkm : k ∈ vs
          · simp [hkm, hc, sremEntry_idem]
          · simp [hkm, hc]
        · simp [hkv]
    · simp only [hc, Bool.not_false, if_true] at h
      have e2 := ih s s' h
      rw [e2]
      funext k
      by_cases hkv : k = v
      · subst hkv
        simp [hc]
      · simp [hkv]

theorem UserTokenExpired_eq (c : Consts) (s s' : Store) (t : String)
    (h : UserTokenExpired c s t = Except.ok s') :
    s' = fun k =>
      if k = tokenBindingsKey c t then none
      else if k ∈ s.members (tokenBindingsKey c t) ∧
          stringsContains k c.ZxwSessionUserPrefix = true
        then sremEntry (s k) t else s k := by
  unfold UserTokenExpired at h
  simp only at h
  have hmem : redisStrings (RedisCluster.Members s (c.ZxwSessionBindUserPrefix ++ t))
      = Except.ok (s.members (tokenBindingsKey c t)) ∨
      ∃ e, redisStrings (RedisCluster.Members s (c.ZxwSessionBindUserPrefix ++ t))
        = Except.error e := by
    unfold RedisCluster.Members Store.members tokenBindingsKey
    cases hk : s (c.ZxwSessionBindUserPrefix ++ t) with
    | none => exact Or.inl rfl
    | some e =>
      obtain ⟨v, ttl⟩ := e
      cases v with
      | set l => exact Or.inl rfl
      | str v => exact Or.inr ⟨_, rfl⟩
      | hash f => exact Or.inr ⟨_, rfl⟩
  rcases hmem with hm | ⟨e, hm⟩
  · rw [hm] at h
    simp only at h
    cases h1 : UserTokenExpiredLoop c t (s.members (tokenBindingsKey c t)) s with
    | error e => rw [h1] at h; cases h
    | ok s1 =>
      rw [h1] at h
      simp only at h
      cases hd : RedisCluster.Del c s1 (c.ZxwSessionBindUserPrefix ++ t) with
      | error e => rw [hd] at h; cases h
      | ok s2 =>
        rw [hd] at h
        injection h with h
        subst h
        rw [Del_ok c s1 s2 _ hd, UserTokenExpiredLoop_eq c t _ s s1 h1]
        funext k
        by_cases hk : k = tokenBindingsKey c t
        · simp [Store.remove, hk, tokenBindingsKey]
        · have hk' : ¬ k = c.ZxwSessionBindUserPrefix ++ t := hk
          simp [Store.remove, hk, hk']
  · rw [hm] at h
    cases h

theorem UserTokenExpired_bindings_shape (c : Consts) (s s' : Store) (t : String)
    (h : UserTokenExpired c s t = Except.ok s') :
    s (tokenBindingsKey c t) = none ∨ ∃ l ttl, s (tokenBindingsKey c t) = some ⟨Value.set l, ttl⟩ := by
  unfold UserTokenExpired at h
  simp only at h
  unfold tokenBindingsKey
  cases hk : s (c.ZxwSessionBindUserPrefix ++ t) with
  | none => exact Or.inl rfl
  | some e =>
    obtain ⟨v, ttl⟩ := e
    cases v with
    | set l => exact Or.inr ⟨l, ttl, rfl⟩
    | str v => simp [RedisCluster.Members, hk, redisStrings] at h
    | hash f => simp [RedisCluster.Members, hk, redisStrings] at h

/-- C9, as amended: a successful `UserTokenExpired` takes the token out of
the set at every member of the token-bindings set that contains
`ZxwSessionUserPrefix` anywhere in its name, leaves every key that is neither
such a member nor the bindings key unchanged, deletes the bindings key, and
leaves the token key and the result of `GetSessionV2` unchanged when the token
key does not itself hold a set. -/
theorem UserTokenExpired_post (c : Consts) (s s' : Store) (t : String)
    (h : UserTokenExpired c s t = Except.ok s') :
    (∀ k, k ∈ s.members (tokenBindingsKey c t) →
      stringsContains k c.ZxwSessionUserPrefix = true →
      t ∉ s'.members k ∧ (k ≠ tokenBindingsKey c t → s' k = sremEntry (s k) t)) ∧
    (∀ k, k ≠ tokenBindingsKey c t →
      ¬ (k ∈ s.members (tokenBindingsKey c t) ∧
        stringsContains k c.ZxwSessionUserPrefix = true) → s' k = s k) ∧
    s' (tokenBindingsKey c t) = none ∧
    ((∀ l ttl, s (tokenKey c t) ≠ some ⟨Value.set l, ttl⟩) →
      s' (tokenKey c t) = s (tokenKey c t) ∧ GetSessionV2 c s' t = GetSessionV2 c s t) := by
  have heq := UserTokenExpired_eq c s s' t h
  have hshape := UserTokenExpired_bindings_shape c s s' t h
  have hval : ∀ k, s' k = if k = tokenBindingsKey c t then none
      else if k ∈ s.members (tokenBindingsKey c t) ∧
          stringsContains k c.ZxwSessionUserPrefix = true
        then sremEntry (s k) t else s k := fun k => by rw [heq]
  have htok : (∀ l ttl, s (tokenKey c t) ≠ some ⟨Value.set l, ttl⟩) →
      s' (tokenKey c t) = s (tokenKey c t) := by
    intro hns
    rw [hval]
    by_cases hk : tokenKey c t = tokenBindingsKey c t
    · rw [if_pos hk]
      rcases hshape with hn | ⟨l, ttl, hl⟩
      · rw [hk, hn]
      · exact absurd (hk ▸ hl) (hns l ttl)
    · rw [if_neg hk]
      split
      · cases hv : s (tokenKey c t) with
        | none => rfl
        | some e =>
          obtain ⟨v, ttl⟩ := e
          cases v with
          | str v => rfl
          | hash f => rfl
          | set l => exact absurd hv (hns l ttl)
      · rfl
  refine ⟨fun k hk hc => ⟨?_, fun hne => ?_⟩, fun k hne hnot => ?_, ?_, fun hns => ⟨htok hns, ?_⟩⟩
  · by_cases hb : k = tokenBindingsKey c t
    · simp [Store.members, hval, hb]
    · apply sremEntry_not_mem (s k) t s' k
      rw [hval, if_neg hb, if_pos ⟨hk, hc⟩]
  · rw [hval, if_neg hne, if_pos ⟨hk, hc⟩]
  · rw [hval, if_neg hne, if_neg hnot]
  · rw [hval, if_pos rfl]
  · have := htok hns
    unfold tokenKey at this
    simp only [GetSessionV2, RedisCluster.Exists, RedisCluster.LoadRedisHashToStruct,
      RedisCluster.HGetAll, this]

/-! ### Time to live and error results -/

theorem UpdateUserTokenCacheExpire_ttl (c : Consts) (s s' : Store) (t : String) (sess : Session)
    (hs : GetSessionV2 c s t = Except.ok sess)
    (hpos : 0 < c.Seconds (getTokenExpire c sess))
    (h : UpdateUserTokenCacheExpire c s t = Except.ok s') :
    (s' (tokenKey c t)).map Entry.ttl = some (some (c.Seconds (getTokenExpire c sess))) := by
  obtain ⟨f, ttl, hk, _⟩ := GetSessionV2_ok_hash c s t sess hs
  unfold UpdateUserTokenCacheExpire at h
  rw [hs] at h
  unfold tokenKey at hk
  cases hw : c.WriteRefused (c.ZxwSessionTokenPrefix ++ t) with
  | true =>
    simp only [RedisCluster.Expire, hw, if_true] at h
    cases h
  | false =>
    simp only [RedisCluster.Expire, hw, Bool.false_eq_true, hk, not_le.mpr hpos,
      if_false] at h
    injection h with h
    subst h
    unfold tokenKey
    rw [Store.put_same]
    rfl

theorem UserTokenExpiredLoop_append (c : Consts) (t : String) (l₁ l₂ : List String) :
    ∀ s s1 : Store, UserTokenExpiredLoop c t l₁ s = Except.ok s1 →
      UserTokenExpiredLoop c t (l₁ ++ l₂) s = UserTokenExpiredLoop c t l₂ s1 := by
  induction l₁ with
  | nil =>
    intro s s1 h
    injection h with h
    subst h
    rfl
  | cons v vs ih =>
    intro s s1 h
    simp only [List.cons_append, UserTokenExpiredLoop] at h ⊢
    by_cases hc : stringsContains v c.ZxwSessionUserPrefix = true
    · simp only [hc, Bool.not_true, Bool.false_eq_true, if_false] at h ⊢
      cases h1 : RedisCluster.Do c s "SREM" [v, t] with
      | error e => rw [h1] at h; cases h
      | ok s0 =>
        rw [h1] at h
        exact ih s0 s1 h
    · simp only [hc, Bool.not_false, if_true] at h ⊢
      exact ih s s1 h

theorem CleanUserTokenCacheLoop_append (c : Consts) (l₁ l₂ : List String) :
    ∀ s s1 : Store, CleanUserTokenCacheLoop c l₁ s = Except.ok s1 →
      CleanUserTokenCacheLoop c (l₁ ++ l₂) s = CleanUserTokenCacheLoop c l₂ s1 := by
  induction l₁ with
  | nil =>
    intro s s1 h
    injection h with h
    subst h
    rfl
  | cons v vs ih =>
    intro s s1 h
    simp only [List.cons_append, CleanUserTokenCacheLoop] at h ⊢
    cases h1 : DelTokenCache c s v with
    | error e => rw [h1] at h; cases h
    | ok s0 =>
      rw [h1] at h
      exact ih s0 s1 h

/-- C10, as amended: every operation with an error result returns the error
of the first cache call of its own that fails, at each of its calls and at
every turn of its loops; `GetAuthId`, `SyncUserTokenCache`,
`UpdateUserTokenCacheExpire`, `DelUserTokenCache` and `CleanUserTokenCache`
return the error of `GetSessionV2`, and the last two the error of
`DelTokenCache`. `IsUserTokenOver` has no error result: a failed read of the
cardinality counts as `0` tokens, so the result is then `0 >= max`, and a
failed or malformed read of the max-token key resolves to
`ZxwSessionUserMaxTokenDefault`. -/
theorem cache_errors_returned (c : Consts) (now : Int) (s : Store) (t u : String) (id : Nat)
    (e : Err) :
    (s (tokenKey c t) ≠ none →
      RedisCluster.LoadRedisHashToStruct s (tokenKey c t) = Except.error e →
      GetSessionV2 c s t = Except.error e) ∧
    (GetSessionV2 c s t = Except.error e →
      GetAuthId c s t = Except.error e ∧ SyncUserTokenCache c s t = Except.error e ∧
      UpdateUserTokenCacheExpire c s t = Except.error e ∧
      DelUserTokenCache c s t = Except.error e ∧ CleanUserTokenCache c s t = Except.error e) ∧
    (RedisCluster.HMSet c s (tokenKey c t)
        [("user_id", FormatUint id), ("login_type", FormatInt c.LoginTypeWeb),
         ("auth_type", FormatInt c.AuthPwd), ("creation_data", FormatInt now),
         ("expires_in", FormatInt 0), ("scope", FormatUint (GetUserScope c "admin"))]
        = Except.error e →
      ToCache c now s t id = Except.error e) ∧
    (∀ sess, GetSessionV2 c s t = Except.ok sess →
      RedisCluster.Sadd c s (userTokensKey c sess.UserId) t = Except.error e →
      SyncUserTokenCache c s t = Except.error e) ∧
    (∀ sess s1, GetSessionV2 c s t = Except.ok sess →
      RedisCluster.Sadd c s (userTokensKey c sess.UserId) t = Except.ok s1 →
      RedisCluster.Sadd c s1 (tokenBindingsKey c t) (userTokensKey c sess.UserId)
        = Except.error e →
      SyncUserTokenCache c s t = Except.error e) ∧
    (∀ sess, GetSessionV2 c s t = Except.ok sess →
      RedisCluster.Expire c s (tokenKey c t) (c.Seconds (getTokenExpire c sess))
        = Except.error e →
      UpdateUserTokenCacheExpire c s t = Except.error e) ∧
    (redisStrings (RedisCluster.Members s (tokenBindingsKey c t)) = Except.error e →
      UserTokenExpired c s t = Except.error e) ∧
    (∀ l₁ v l₂ s1,
      redisStrings (RedisCluster.Members s (tokenBindingsKey c t)) = Except.ok (l₁ ++ v :: l₂) →
      UserTokenExpiredLoop c t l₁ s = Except.ok s1 →
      stringsContains v c.ZxwSessionUserPrefix = true →
      RedisCluster.Do c s1 "SREM" [v, t] = Except.error e →
      UserTokenExpired c s t = Except.error e) ∧
    (∀ sKeys s1,
      redisStrings (RedisCluster.Members s (tokenBindingsKey c t)) = Except.ok sKeys →
      UserTokenExpiredLoop c t sKeys s = Except.ok s1 →
      RedisCluster.Del c s1 (tokenBindingsKey c t) = Except.error e →
      UserTokenExpired c s t = Except.error e) ∧
    (RedisCluster.Del c s (tokenBindingsKey c t) = Except.error e →
      DelTokenCache c s t = Except.error e) ∧
    (∀ s1, RedisCluster.Del c s (tokenBindingsKey c t) = Except.ok s1 →
      RedisCluster.Del c s1 (tokenKey c t) = Except.error e →
      DelTokenCache c s t = Except.error e) ∧
    (∀ sess, GetSessionV2 c s t = Except.ok sess →
      RedisCluster.Do c s "SREM" [userTokensKey c sess.UserId, t] = Except.error e →
      DelUserTokenCache c s t = Except.error e) ∧
    (∀ sess s1, GetSessionV2 c s t = Except.ok sess →
      RedisCluster.Do c s "SREM" [userTokensKey c sess.UserId, t] = Except.ok s1 →
      DelTokenCache c s1 t = Except.error e →
      DelUserTokenCache c s t = Except.error e) ∧
    (∀ sess, GetSessionV2 c s t = Except.ok sess →
      redisStrings (RedisCluster.Members s (userTokensKey c sess.UserId)) = Except.error e →
      CleanUserTokenCache c s t = Except.error e) ∧
    (∀ sess allTokens, GetSessionV2 c s t = Except.ok sess →
      redisStrings (RedisCluster.Members s (userTokensKey c sess.UserId))
        = Except.ok allTokens →
      RedisCluster.Del c s (userTokensKey c sess.UserId) = Except.error e →
      CleanUserTokenCache c s t = Except.error e) ∧
    (∀ sess l₁ tok l₂ s1 s2, GetSessionV2 c s t = Except.ok sess →
      redisStrings (RedisCluster.Members s (userTokensKey c sess.UserId))
        = Except.ok (l₁ ++ tok :: l₂) →
      RedisCluster.Del c s (userTokensKey c sess.UserId) = Except.ok s1 →
      CleanUserTokenCacheLoop c l₁ s1 = Except.ok s2 →
      DelTokenCache c s2 tok = Except.error e →
      CleanUserTokenCache c s t = Except.error e) ∧
    (redisInt (RedisCluster.Scard s (userTokensKey c u)) = Except.error e →
      getUserTokenCount c s u = 0 ∧
      (IsUserTokenOver c s u = true ↔ getUserTokenMaxCount c s ≤ 0)) ∧
    (redisInt (RedisCluster.GetKey s c.ZxwSessionUserMaxTokenPrefix) = Except.error e →
      getUserTokenMaxCount c s = c.ZxwSessionUserMaxTokenDefault) := by
  refine ⟨?_, ?_, ?_, ?_, ?_, ?_, ?_, ?_, ?_, ?_, ?_, ?_, ?_, ?_, ?_, ?_, ?_, ?_⟩
  · intro hp hl
    rw [GetSessionV2_of_present c s t hp, hl]
  · intro h
    refine ⟨?_, ?_, ?_, ?_, ?_⟩
    · simp [GetAuthId, h]
    · simp [SyncUserTokenCache, h]
    · simp [UpdateUserTokenCacheExpire, h]
    · simp [DelUserTokenCache, h]
    · simp [CleanUserTokenCache, h]
  · intro h
    unfold tokenKey at h
    simp only [ToCache, h]
  · intro sess hs h
    unfold userTokensKey at h
    simp only [SyncUserTokenCache, hs, h]
  · intro sess s1 hs h1 h2
    unfold userTokensKey at h1
    unfold userTokensKey tokenBindingsKey at h2
    simp only [SyncUserTokenCache, hs, h1, h2]
  · intro sess hs h
    unfold tokenKey at h
    simp only [UpdateUserTokenCacheExpire, hs, h]
  · intro h
    unfold tokenBindingsKey at h
    simp only [UserTokenExpired, h]
  · intro l₁ v l₂ s1 hm hl hc h
    unfold tokenBindingsKey at hm
    have hloop : UserTokenExpiredLoop c t (l₁ ++ v :: l₂) s = Except.error e := by
      rw [UserTokenExpiredLoop_append c t l₁ (v :: l₂) s s1 hl]
      simp only [UserTokenExpiredLoop, hc, Bool.not_true, Bool.false_eq_true, if_false, h]
    simp only [UserTokenExpired, hm, hloop]
  · intro sKeys s1 hm hl h
    unfold tokenBindingsKey at hm h
    simp only [UserTokenExpired, hm, hl, h]
  · intro h
    unfold tokenBindingsKey at h
    simp only [DelTokenCache, h]
  · intro s1 h1 h2
    unfold tokenBindingsKey at h1
    unfold tokenKey at h2
    simp only [DelTokenCache, h1, h2]
  · intro sess hs h
    unfold userTokensKey at h
    simp only [DelUserTokenCache, hs, h]
  · intro sess s1 hs h1 h2
    unfold userTokensKey at h1
    simp only [DelUserTokenCache, hs, h1, h2]
  · intro sess hs h
    unfold userTokensKey at h
    simp only [CleanUserTokenCache, hs, h]
  · intro sess allTokens hs hm h
    unfold userTokensKey at hm h
    simp only [CleanUserTokenCache, hs, hm, h]
  · intro sess l₁ tok l₂ s1 s2 hs hm hd hl h
    unfold userTokensKey at hm hd
    have hloop : CleanUserTokenCacheLoop c (l₁ ++ tok :: l₂) s1 = Except.error e := by
      rw [CleanUserTokenCacheLoop_append c l₁ (tok :: l₂) s1 s2 hl]
      simp only [CleanUserTokenCacheLoop, h]
    simp only [CleanUserTokenCache, hs, hm, hd, hloop]
  · intro h
    unfold userTokensKey at h
    have h0 : getUserTokenCount c s u = 0 := by simp only [getUserTokenCount, h]
    refine ⟨h0, ?_⟩
    unfold IsUserTokenOver
    rw [h0]
    simp
  · intro h
    simp only [getUserTokenMaxCount, h]

/-! ### The concrete instance -/

theorem sampleConsts_collisionFree : sampleConsts.CollisionFree := by
  intro u t
  constructor
  · intro h
    have := congrArg String.data h
    simp [userTokensKey, tokenKey, sampleConsts] at this
  · intro h
    have := congrArg String.data h
    simp [userTokensKey, tokenBindingsKey, sampleConsts] at this

theorem sampleConsts_inRange : sampleConsts.InRange 1600000000 := by
  unfold Consts.InRange sampleConsts
  norm_num

/-- The decimal parser with fallback reads the decimal text of every id below
`2^63` back. -/
theorem parseIntOr_FormatUint (u : Nat) (hu : u < 2 ^ 63) (d : Int) :
    parseIntOr (FormatUint u) d = (u : Int) := by
  have h := strconvParseInt_FormatInt (u : Int) (by omega) (by exact_mod_cast hu)
  have hf : FormatInt (u : Int) = FormatUint u := by
    unfold FormatInt FormatUint
    rw [if_neg (by omega)]
    rfl
  rw [hf] at h
  simp [parseIntOr, h]

theorem sampleConsts_parsesDecimal : sampleConsts.ParsesDecimal :=
  fun n hn => parseIntOr_FormatUint n hn 10

/-- Counterexample to C1: for the user id `2^63` both writes succeed and
`GetAuthId` then returns `10`, not the id. -/
theorem GetAuthId_after_login_large_id :
    sampleConsts.InRange 1600000000 ∧
    ToCache sampleConsts 1600000000 emptyStore "tok" 9223372036854775808
      = Except.ok (emptyStore.put "GST:tok"
          ⟨Value.hash (sessionHash "9223372036854775808" "0"), none⟩) ∧
    SyncUserTokenCache sampleConsts
        (emptyStore.put "GST:tok" ⟨Value.hash (sessionHash "9223372036854775808" "0"), none⟩)
        "tok"
      = Except.ok (((emptyStore.put "GST:tok"
          ⟨Value.hash (sessionHash "9223372036854775808" "0"), none⟩).put
          "GSU:9223372036854775808" ⟨Value.set ["tok"], none⟩).put "GSBU:tok"
          ⟨Value.set ["GSU:9223372036854775808"], none⟩) ∧
    GetAuthId sampleConsts
        (((emptyStore.put "GST:tok"
          ⟨Value.hash (sessionHash "9223372036854775808" "0"), none⟩).put
          "GSU:9223372036854775808" ⟨Value.set ["tok"], none⟩).put "GSBU:tok"
          ⟨Value.set ["GSU:9223372036854775808"], none⟩) "tok"
      = Except.ok 10 :=
  ⟨sampleConsts_inRange, rfl, rfl, rfl⟩

/-- Witness of C1 as amended: a login of user `7` on token `tok` in the empty
cache. -/
theorem ToCache_SyncUserTokenCache_post_witness :
    sampleConsts.InRange 1600000000 ∧
    ToCache sampleConsts 1600000000 emptyStore "tok" 7
      = Except.ok (emptyStore.put "GST:tok" ⟨Value.hash (sessionHash "7" "0"), none⟩) ∧
    SyncUserTokenCache sampleConsts
        (emptyStore.put "GST:tok" ⟨Value.hash (sessionHash "7" "0"), none⟩) "tok"
      = Except.ok (((emptyStore.put "GST:tok" ⟨Value.hash (sessionHash "7" "0"), none⟩).put
          "GSU:7" ⟨Value.set ["tok"], none⟩).put "GSBU:tok" ⟨Value.set ["GSU:7"], none⟩) ∧
    sampleConsts.ParsesDecimal ∧ 7 < 2 ^ 63 ∧
    GetAuthId sampleConsts
        (((emptyStore.put "GST:tok" ⟨Value.hash (sessionHash "7" "0"), none⟩).put
          "GSU:7" ⟨Value.set ["tok"], none⟩).put "GSBU:tok" ⟨Value.set ["GSU:7"], none⟩) "tok"
        = Except.ok 7 ∧
    "tok" ∈ Store.members
        (((emptyStore.put "GST:tok" ⟨Value.hash (sessionHash "7" "0"), none⟩).put
          "GSU:7" ⟨Value.set ["tok"], none⟩).put "GSBU:tok" ⟨Value.set ["GSU:7"], none⟩)
        (userTokensKey sampleConsts (FormatUint 7)) ∧
    userTokensKey sampleConsts (FormatUint 7) ∈ Store.members
        (((emptyStore.put "GST:tok" ⟨Value.hash (sessionHash "7" "0"), none⟩).put
          "GSU:7" ⟨Value.set ["tok"], none⟩).put "GSBU:tok" ⟨Value.set ["GSU:7"], none⟩)
        (tokenBindingsKey sampleConsts "tok") :=
  ⟨sampleConsts_inRange, rfl, rfl, sampleConsts_parsesDecimal, by norm_num,
    (ToCache_SyncUserTokenCache_post sampleConsts 1600000000 emptyStore _ _ "tok" 7
      sampleConsts_inRange rfl rfl).2.1 sampleConsts_parsesDecimal (by norm_num),
    (ToCache_SyncUserTokenCache_post sampleConsts 1600000000 emptyStore _ _ "tok" 7
      sampleConsts_inRange rfl rfl).2.2⟩

/-- Witness of C2: the token key of `a` exists in the sample cache. -/
theorem GetSessionV2_invalid_iff_absent_witness :
    sampleStore (tokenKey sampleConsts "a") ≠ none ∧
    (GetSessionV2 sampleConsts sampleStore "a"
        = RedisCluster.LoadRedisHashToStruct sampleStore (tokenKey sampleConsts "a") ∧
      ((∃ sess, GetSessionV2 sampleConsts sampleStore "a" = Except.ok sess) ∨
        (∃ e, GetSessionV2 sampleConsts sampleStore "a" = Except.error e ∧
          e ≠ Err.ErrTokenInvalid))) :=
  ⟨by decide, (GetSessionV2_invalid_iff_absent sampleConsts sampleStore "a").2 (by decide)⟩

/-- Witness of C3: deleting token `a` of user `7` in the sample cache. -/
theorem DelUserTokenCache_post_witness :
    GetSessionV2 sampleConsts sampleStore "a" = Except.ok ⟨"7", 0, 0, 1600000000, 0, 1⟩ ∧
    DelUserTokenCache sampleConsts sampleStore "a"
      = Except.ok (((sampleStore.put "GSU:7" ⟨Value.set ["b"], none⟩).remove "GSBU:a").remove
          "GST:a") ∧
    ("a" ∉ Store.members
        (((sampleStore.put "GSU:7" ⟨Value.set ["b"], none⟩).remove "GSBU:a").remove "GST:a")
        (userTokensKey sampleConsts "7") ∧
      GetSessionV2 sampleConsts
        (((sampleStore.put "GSU:7" ⟨Value.set ["b"], none⟩).remove "GSBU:a").remove "GST:a") "a"
        = Except.error Err.ErrTokenInvalid ∧
      (((sampleStore.put "GSU:7" ⟨Value.set ["b"], none⟩).remove "GSBU:a").remove "GST:a")
        (tokenBindingsKey sampleConsts "a") = none) :=
  ⟨rfl, rfl, DelUserTokenCache_post sampleConsts sampleStore _ "a"
    ⟨"7", 0, 0, 1600000000, 0, 1⟩ rfl rfl⟩

/-- Witness of C4: cleaning the tokens `a`, `b` of user `7` through `a`. -/
theorem CleanUserTokenCache_post_witness :
    GetSessionV2 sampleConsts sampleStore "a" = Except.ok ⟨"7", 0, 0, 1600000000, 0, 1⟩ ∧
    Store.members sampleStore (userTokensKey sampleConsts "7") = ["a", "b"] ∧
    "a" ∈ ["a", "b"] ∧
    CleanUserTokenCache sampleConsts sampleStore "a"
      = Except.ok (((((sampleStore.remove "GSU:7").remove "GSBU:a").remove "GST:a").remove
          "GSBU:b").remove "GST:b") ∧
    ((∀ x ∈ ["a", "b"], GetSessionV2 sampleConsts
        (((((sampleStore.remove "GSU:7").remove "GSBU:a").remove "GST:a").remove
          "GSBU:b").remove "GST:b") x = Except.error Err.ErrTokenInvalid) ∧
      (((((sampleStore.remove "GSU:7").remove "GSBU:a").remove "GST:a").remove
          "GSBU:b").remove "GST:b") (userTokensKey sampleConsts "7") = none) :=
  ⟨rfl, rfl, by decide, rfl, CleanUserTokenCache_post sampleConsts sampleStore _ "a"
    ⟨"7", 0, 0, 1600000000, 0, 1⟩ ["a", "b"] rfl rfl (by decide) rfl⟩

/-- Witness of C5: user `7` holds two tokens under a limit of three, and the
third token `c` brings the user to the limit. -/
theorem IsUserTokenOver_iff_card_ge_max_witness :
    (userTokenCard sampleConsts sampleStore "7" : Int)
      = configuredMax sampleConsts sampleStore - 1 ∧
    GetSessionV2 sampleConsts sampleStore "c" = Except.ok ⟨"7", 0, 0, 1600000000, 0, 1⟩ ∧
    "c" ∉ Store.members sampleStore (userTokensKey sampleConsts "7") ∧
    SyncUserTokenCache sampleConsts sampleStore "c"
      = Except.ok ((sampleStore.put "GSU:7" ⟨Value.set ["a", "b", "c"], none⟩).put "GSBU:c"
          ⟨Value.set ["GSU:7"], none⟩) ∧
    IsUserTokenOver sampleConsts sampleStore "7" = false ∧
    IsUserTokenOver sampleConsts
      ((sampleStore.put "GSU:7" ⟨Value.set ["a", "b", "c"], none⟩).put "GSBU:c"
        ⟨Value.set ["GSU:7"], none⟩) "7" = true :=
  ⟨rfl, rfl, by decide, rfl,
    ((IsUserTokenOver_iff_card_ge_max sampleConsts sampleStore
      ((sampleStore.put "GSU:7" ⟨Value.set ["a", "b", "c"], none⟩).put "GSBU:c"
        ⟨Value.set ["GSU:7"], none⟩) "7" "c" ⟨"7", 0, 0, 1600000000, 0, 1⟩).2 rfl).1,
    ((IsUserTokenOver_iff_card_ge_max sampleConsts sampleStore
      ((sampleStore.put "GSU:7" ⟨Value.set ["a", "b", "c"], none⟩).put "GSBU:c"
        ⟨Value.set ["GSU:7"], none⟩) "7" "c" ⟨"7", 0, 0, 1600000000, 0, 1⟩).2 rfl).2
      rfl rfl (by decide) rfl⟩

/-- Witness of C8: after `DelTokenCache` of `a` the token is still in the set
of user `7`. -/
theorem DelTokenCache_frame_witness :
    sampleConsts.CollisionFree ∧
    DelTokenCache sampleConsts sampleStore "a"
      = Except.ok ((sampleStore.remove "GSBU:a").remove "GST:a") ∧
    "a" ∈ Store.members sampleStore (userTokensKey sampleConsts "7") ∧
    "a" ∈ Store.members ((sampleStore.remove "GSBU:a").remove "GST:a")
      (userTokensKey sampleConsts "7") :=
  ⟨sampleConsts_collisionFree, rfl, by decide,
    (DelTokenCache_frame sampleConsts sampleStore _ "a" sampleConsts_collisionFree
      rfl).2.2.2.2.2 "7" "a" (by decide)⟩

/-- Counterexample to C6: with distinct login types and three distinct
timeouts, a Wx session and an Alipay session get the same duration from
`getTokenExpire` and the same time to live from `UpdateUserTokenCacheExpire`. -/
theorem getTokenExpire_wx_alipay_same :
    sampleConsts.LoginTypeWx ≠ sampleConsts.LoginTypeAlipay ∧
    GetSessionV2 sampleConsts wxAlipayStore "w"
      = Except.ok ⟨"7", sampleConsts.LoginTypeWx, 0, 1600000000, 0, 1⟩ ∧
    GetSessionV2 sampleConsts wxAlipayStore "p"
      = Except.ok ⟨"8", sampleConsts.LoginTypeAlipay, 0, 1600000000, 0, 1⟩ ∧
    getTokenExpire sampleConsts ⟨"7", sampleConsts.LoginTypeWx, 0, 1600000000, 0, 1⟩
      = getTokenExpire sampleConsts ⟨"8", sampleConsts.LoginTypeAlipay, 0, 1600000000, 0, 1⟩ ∧
    UpdateUserTokenCacheExpire sampleConsts wxAlipayStore "w"
      = Except.ok (wxAlipayStore.put "GST:w"
          ⟨Value.hash (sessionHash "7" "2"), some 157248000⟩) ∧
    UpdateUserTokenCacheExpire sampleConsts wxAlipayStore "p"
      = Except.ok (wxAlipayStore.put "GST:p"
          ⟨Value.hash (sessionHash "8" "3"), some 157248000⟩) :=
  ⟨by decide, rfl, rfl, rfl, rfl, rfl⟩

/-- C6, as amended: with pairwise distinct login types, `getTokenExpire` maps
Web to the Web timeout, App to the App timeout, Wx and Alipay both to the Wx
timeout, and any other login type to the App timeout; a successful
`UpdateUserTokenCacheExpire` with a positive number of seconds gives the token
key the time to live of that duration. -/
theorem getTokenExpire_by_login_type (c : Consts) (rsv2 : Session) (s s' : Store) (t : String)
    (hwa : c.LoginTypeWeb ≠ c.LoginTypeApp) (hwx : c.LoginTypeWeb ≠ c.LoginTypeWx)
    (hwl : c.LoginTypeWeb ≠ c.LoginTypeAlipay) (hax : c.LoginTypeApp ≠ c.LoginTypeWx)
    (hal : c.LoginTypeApp ≠ c.LoginTypeAlipay) :
    (rsv2.LoginType = c.LoginTypeWeb → getTokenExpire c rsv2 = c.RedisSessionTimeoutWeb) ∧
    (rsv2.LoginType = c.LoginTypeApp → getTokenExpire c rsv2 = c.RedisSessionTimeoutApp) ∧
    (rsv2.LoginType = c.LoginTypeWx → getTokenExpire c rsv2 = c.RedisSessionTimeoutWx) ∧
    (rsv2.LoginType = c.LoginTypeAlipay → getTokenExpire c rsv2 = c.RedisSessionTimeoutWx) ∧
    (rsv2.LoginType ≠ c.LoginTypeWeb → rsv2.LoginType ≠ c.LoginTypeWx →
      rsv2.LoginType ≠ c.LoginTypeAlipay → getTokenExpire c rsv2 = c.RedisSessionTimeoutApp) ∧
    (GetSessionV2 c s t = Except.ok rsv2 → 0 < c.Seconds (getTokenExpire c rsv2) →
      UpdateUserTokenCacheExpire c s t = Except.ok s' →
      (s' (tokenKey c t)).map Entry.ttl = some (some (c.Seconds (getTokenExpire c rsv2)))) := by
  obtain ⟨h1, h2, h3, h4, h5⟩ := getTokenExpire_cases c rsv2 hwa hwx hwl hax hal
  exact ⟨h1, h2, h3, h4, h5, fun hs hpos h => UpdateUserTokenCacheExpire_ttl c s s' t rsv2 hs hpos h⟩

/-- Witness of C6 as amended: the Alipay session of the sample cache. -/
theorem getTokenExpire_by_login_type_witness :
    sampleConsts.LoginTypeWeb ≠ sampleConsts.LoginTypeApp ∧
    sampleConsts.LoginTypeWeb ≠ sampleConsts.LoginTypeWx ∧
    sampleConsts.LoginTypeWeb ≠ sampleConsts.LoginTypeAlipay ∧
    sampleConsts.LoginTypeApp ≠ sampleConsts.LoginTypeWx ∧
    sampleConsts.LoginTypeApp ≠ sampleConsts.LoginTypeAlipay ∧
    getTokenExpire sampleConsts ⟨"8", 3, 0, 1600000000, 0, 1⟩
      = sampleConsts.RedisSessionTimeoutWx ∧
    (wxAlipayStore.put "GST:p" ⟨Value.hash (sessionHash "8" "3"), some 157248000⟩
        (tokenKey sampleConsts "p")).map Entry.ttl
      = some (some (sampleConsts.Seconds
          (getTokenExpire sampleConsts ⟨"8", 3, 0, 1600000000, 0, 1⟩))) :=
  ⟨by decide, by decide, by decide, by decide, by decide,
    (getTokenExpire_by_login_type sampleConsts ⟨"8", 3, 0, 1600000000, 0, 1⟩ wxAlipayStore
      (wxAlipayStore.put "GST:p" ⟨Value.hash (sessionHash "8" "3"), some 157248000⟩) "p"
      (by decide) (by decide) (by decide) (by decide) (by decide)).2.2.2.1 rfl,
    (getTokenExpire_by_login_type sampleConsts ⟨"8", 3, 0, 1600000000, 0, 1⟩ wxAlipayStore
      (wxAlipayStore.put "GST:p" ⟨Value.hash (sessionHash "8" "3"), some 157248000⟩) "p"
      (by decide) (by decide) (by decide) (by decide) (by decide)).2.2.2.2.2 rfl (by decide)
      rfl⟩

/-- Counterexample to C7: the token key exists, the stored user id `abc` is
not numeric, and `GetAuthId` returns a user id and no error. -/
theorem GetAuthId_non_numeric_user_id :
    nonNumericUserStore (tokenKey sampleConsts "tok") ≠ none ∧
    GetSessionV2 sampleConsts nonNumericUserStore "tok"
      = Except.ok ⟨"abc", 0, 0, 1600000000, 0, 1⟩ ∧
    strconvParseInt "abc" = none ∧ strconvParseUint "abc" = none ∧
    GetAuthId sampleConsts nonNumericUserStore "tok" = Except.ok 10 :=
  ⟨by decide, rfl, rfl, rfl, rfl⟩

/-- Witness of C7 as amended: a session with user id `abc`, and a token with
no key. -/
theorem GetAuthId_result_witness :
    GetSessionV2 sampleConsts nonNumericUserStore "tok"
      = Except.ok ⟨"abc", 0, 0, 1600000000, 0, 1⟩ ∧
    GetAuthId sampleConsts nonNumericUserStore "tok"
      = Except.ok (uint (sampleConsts.ParseInt "abc" 10)) ∧
    nonNumericUserStore (tokenKey sampleConsts "gone") = none ∧
    GetAuthId sampleConsts nonNumericUserStore "gone" = Except.error Err.ErrTokenInvalid :=
  ⟨rfl, (GetAuthId_result sampleConsts nonNumericUserStore "tok").2.1
      ⟨"abc", 0, 0, 1600000000, 0, 1⟩ rfl,
    rfl, (GetAuthId_result sampleConsts nonNumericUserStore "gone").1 rfl⟩

/-- Counterexample to C9: the member `xGSU:7` of the bindings of `a` does not
start with the user-tokens prefix, and `UserTokenExpired` takes `a` out of the
set it names all the same. -/
theorem UserTokenExpired_substring_member :
    UserTokenExpired sampleConsts strayBindingStore "a"
      = Except.ok (((strayBindingStore.put "GSU:7" ⟨Value.set ["b"], none⟩).put "xGSU:7"
          ⟨Value.set ["z"], none⟩).remove "GSBU:a") ∧
    "xGSU:7" ∈ Store.members strayBindingStore (tokenBindingsKey sampleConsts "a") ∧
    stringsHasPrefix "xGSU:7" sampleConsts.ZxwSessionUserPrefix = false ∧
    Store.members strayBindingStore "xGSU:7" = ["a", "z"] ∧
    Store.members (((strayBindingStore.put "GSU:7" ⟨Value.set ["b"], none⟩).put "xGSU:7"
          ⟨Value.set ["z"], none⟩).remove "GSBU:a") "xGSU:7" = ["z"] :=
  ⟨rfl, by decide, rfl, rfl, rfl⟩

/-- Witness of C9 as amended: the same cache; `xGSU:7` contains the prefix. -/
theorem UserTokenExpired_post_witness :
    UserTokenExpired sampleConsts strayBindingStore "a"
      = Except.ok (((strayBindingStore.put "GSU:7" ⟨Value.set ["b"], none⟩).put "xGSU:7"
          ⟨Value.set ["z"], none⟩).remove "GSBU:a") ∧
    "xGSU:7" ∈ Store.members strayBindingStore (tokenBindingsKey sampleConsts "a") ∧
    stringsContains "xGSU:7" sampleConsts.ZxwSessionUserPrefix = true ∧
    "a" ∉ Store.members (((strayBindingStore.put "GSU:7" ⟨Value.set ["b"], none⟩).put "xGSU:7"
          ⟨Value.set ["z"], none⟩).remove "GSBU:a") "xGSU:7" ∧
    (∀ l ttl, strayBindingStore (tokenKey sampleConsts "a") ≠ some ⟨Value.set l, ttl⟩) ∧
    GetSessionV2 sampleConsts (((strayBindingStore.put "GSU:7" ⟨Value.set ["b"], none⟩).put
        "xGSU:7" ⟨Value.set ["z"], none⟩).remove "GSBU:a") "a"
      = GetSessionV2 sampleConsts strayBindingStore "a" :=
  ⟨rfl, by decide, rfl,
    ((UserTokenExpired_post sampleConsts strayBindingStore _ "a" rfl).1 "xGSU:7" (by decide)
      rfl).1,
    fun l ttl h => (by cases h),
    ((UserTokenExpired_post sampleConsts strayBindingStore _ "a" rfl).2.2.2
      (fun l ttl h => by cases h)).2⟩

/-- Counterexample to C10: the cardinality read of user `7` fails, and
`IsUserTokenOver` answers `false` with no error reaching the caller. -/
theorem IsUserTokenOver_swallows_scard_error :
    redisInt (RedisCluster.Scard brokenCountStore (userTokensKey sampleConsts "7"))
      = Except.error Err.WrongType ∧
    getUserTokenCount sampleConsts brokenCountStore "7" = 0 ∧
    IsUserTokenOver sampleConsts brokenCountStore "7" = false :=
  ⟨rfl, rfl, rfl⟩

/-- Witness of C10 as amended: on a cache that refuses writing to one key, the
refused `DEL` that ends `UserTokenExpired`, the refused `SREM` at the second
turn of its loop, the refused `EXPIRE`, the refused second `DEL` of
`DelTokenCache` and the refused `DEL` at the second turn of the loop of
`CleanUserTokenCache` all reach the caller; a set add on a key that holds a
string is returned as well, and the failing cardinality read counts as `0`. -/
theorem cache_errors_returned_witness :
    (RedisCluster.Del (refusingConsts ["GSBU:a"])
        (sampleStore.put "GSU:7" ⟨Value.set ["b"], none⟩)
        (tokenBindingsKey (refusingConsts ["GSBU:a"]) "a") = Except.error Err.WriteRefused ∧
      UserTokenExpired (refusingConsts ["GSBU:a"]) sampleStore "a"
        = Except.error Err.WriteRefused) ∧
    (RedisCluster.Do (refusingConsts ["xGSU:7"])
        (strayBindingStore.put "GSU:7" ⟨Value.set ["b"], none⟩) "SREM" ["xGSU:7", "a"]
        = Except.error Err.WriteRefused ∧
      UserTokenExpired (refusingConsts ["xGSU:7"]) strayBindingStore "a"
        = Except.error Err.WriteRefused) ∧
    (RedisCluster.Expire (refusingConsts ["GST:a"]) sampleStore
        (tokenKey (refusingConsts ["GST:a"]) "a") 1800 = Except.error Err.WriteRefused ∧
      UpdateUserTokenCacheExpire (refusingConsts ["GST:a"]) sampleStore "a"
        = Except.error Err.WriteRefused) ∧
    (RedisCluster.Del (refusingConsts ["GST:a"]) (sampleStore.remove "GSBU:a")
        (tokenKey (refusingConsts ["GST:a"]) "a") = Except.error Err.WriteRefused ∧
      DelTokenCache (refusingConsts ["GST:a"]) sampleStore "a"
        = Except.error Err.WriteRefused) ∧
    (DelTokenCache (refusingConsts ["GSBU:b"])
        (((sampleStore.remove "GSU:7").remove "GSBU:a").remove "GST:a") "b"
        = Except.error Err.WriteRefused ∧
      CleanUserTokenCache (refusingConsts ["GSBU:b"]) sampleStore "a"
        = Except.error Err.WriteRefused) ∧
    (RedisCluster.Sadd sampleConsts brokenCountStore (userTokensKey sampleConsts "7") "a"
        = Except.error Err.WrongType ∧
      SyncUserTokenCache sampleConsts brokenCountStore "a" = Except.error Err.WrongType) ∧
    (redisInt (RedisCluster.Scard brokenCountStore (userTokensKey sampleConsts "7"))
        = Except.error Err.WrongType ∧
      getUserTokenCount sampleConsts brokenCountStore "7" = 0) :=
  ⟨⟨rfl, (cache_errors_returned (refusingConsts ["GSBU:a"]) 1600000000 sampleStore "a" "7" 7
      Err.WriteRefused).2.2.2.2.2.2.2.2.1
      ["GSU:7"] (sampleStore.put "GSU:7" ⟨Value.set ["b"], none⟩) rfl rfl rfl⟩,
    ⟨rfl, (cache_errors_returned (refusingConsts ["xGSU:7"]) 1600000000 strayBindingStore "a"
      "7" 7 Err.WriteRefused).2.2.2.2.2.2.2.1
      ["GSU:7"] "xGSU:7" [] (strayBindingStore.put "GSU:7" ⟨Value.set ["b"], none⟩)
      rfl rfl rfl rfl⟩,
    ⟨rfl, (cache_errors_returned (refusingConsts ["GST:a"]) 1600000000 sampleStore "a"
      "7" 7 Err.WriteRefused).2.2.2.2.2.1
      ⟨"7", 0, 0, 1600000000, 0, 1⟩ rfl rfl⟩,
    ⟨rfl, (cache_errors_returned (refusingConsts ["GST:a"]) 1600000000 sampleStore "a"
      "7" 7 Err.WriteRefused).2.2.2.2.2.2.2.2.2.2.1
      (sampleStore.remove "GSBU:a") rfl rfl⟩,
    ⟨rfl, (cache_errors_returned (refusingConsts ["GSBU:b"]) 1600000000 sampleStore "a"
      "7" 7 Err.WriteRefused).2.2.2.2.2.2.2.2.2.2.2.2.2.2.2.1
      ⟨"7", 0, 0, 1600000000, 0, 1⟩ ["a"] "b" [] (sampleStore.remove "GSU:7")
      (((sampleStore.remove "GSU:7").remove "GSBU:a").remove "GST:a") rfl rfl rfl rfl rfl⟩,
    ⟨rfl, (cache_errors_returned sampleConsts 1600000000 brokenCountStore "a" "7" 7
      Err.WrongType).2.2.2.1 ⟨"7", 0, 0, 1600000000, 0, 1⟩ rfl rfl⟩,
    ⟨rfl, ((cache_errors_returned sampleConsts 1600000000 brokenCountStore "a" "7" 7
      Err.WrongType).2.2.2.2.2.2.2.2.2.2.2.2.2.2.2.2.1 rfl).1⟩⟩

/-! ### Sets stay free of repetitions -/

theorem sadd_nodup (s s' : Store) (key member : String)
    (h : RedisCluster.sadd s key member = Except.ok s')
    (hn : ∀ k, (s.members k).Nodup) : ∀ k, (s'.members k).Nodup := by
  intro k
  unfold RedisCluster.sadd at h
  split at h
  · injection h with h
    subst h
    by_cases hk : k = key
    · subst hk; simp [Store.members, Store.put_same]
    · rw [Store.members_congr _ _ _ (Store.put_other _ _ hk)]; exact hn k
  · rename_i l ttl hs
    split at h
    · injection h with h
      subst h
      exact hn k
    · rename_i hmem
      injection h with h
      subst h
      by_cases hk : k = key
      · subst hk
        have hl := hn k
        simp only [Store.members, hs] at hl
        simp only [Store.members, Store.put_same]
        exact List.Nodup.append hl (List.nodup_singleton _) (by simpa using hmem)
      · rw [Store.members_congr _ _ _ (Store.put_other _ _ hk)]; exact hn k
  · cases h

theorem srem_nodup (s s' : Store) (key member : String)
    (h : RedisCluster.srem s key member = Except.ok s')
    (hn : ∀ k, (s.members k).Nodup) : ∀ k, (s'.members k).Nodup := by
  intro k
  have heq := srem_eq s s' key member h
  by_cases hk : k = key
  · subst hk
    have hv : s' k = sremEntry (s k) member := by rw [heq]; simp
    have hl := hn k
    cases he : s k with
    | none => simp [Store.members, hv, he, sremEntry]
    | some e =>
      obtain ⟨v, ttl⟩ := e
      cases v with
      | str v => simp [Store.members, hv, he, sremEntry]
      | hash f => simp [Store.members, hv, he, sremEntry]
      | set l =>
        simp only [Store.members, he] at hl
        by_cases hf : l.filter (fun x => x ≠ member) = []
        · rw [he, sremEntry_set_empty l ttl member hf] at hv
          simp [Store.members, hv]
        · rw [he, sremEntry_set_rest l ttl member hf] at hv
          simp only [Store.members, hv]
          exact hl.filter _
  · have hv : s' k = s k := by rw [heq]; simp [hk]
    rw [Store.members_congr _ _ _ hv]; exact hn k

/-- A token key that holds a set and is named by the bindings of its token is
cleaned like any other member: here it loses its only member and is deleted,
so `GetSessionV2` answers differently before and after. -/
theorem UserTokenExpired_set_token_key :
    UserTokenExpired sampleConsts setTokenKeyStore "GSU:x"
      = Except.ok ((setTokenKeyStore.remove "GST:GSU:x").remove "GSBU:GSU:x") ∧
    GetSessionV2 sampleConsts setTokenKeyStore "GSU:x" = Except.error Err.WrongType ∧
    GetSessionV2 sampleConsts ((setTokenKeyStore.remove "GST:GSU:x").remove "GSBU:GSU:x")
      "GSU:x" = Except.error Err.ErrTokenInvalid :=
  ⟨rfl, rfl, rfl⟩

/-! ### Conversions and decoding at the edges -/

/-- The conversion `uint(x)` wraps a negative `int` around `2^64`. -/
theorem uint_neg_one : uint (-1) = 18446744073709551615 := by decide

/-- A hash that has only the user id decodes to a session whose other fields
are zero. -/
theorem decodeSession_missing_fields :
    decodeSession [("user_id", "7")] = Except.ok ⟨"7", 0, 0, 0, 0, 0⟩ := rfl

/-- A malformed numeric field fails the decoding. -/
theorem decodeSession_malformed_field :
    decodeSession [("user_id", "7"), ("login_type", "web")] = Except.error Err.Decode := rfl

end Auth
